import Mathlib

/-!
# Lifecycle orchestrator of `bootstrap` (boot.go, config.go)

A shallow embedding of package `bootstrap`: the fluent builder on `Bootstrap`,
`parseEvent`, the main control flow of `BootUp` together with the goroutine it
starts, and the configuration loader (`InitConfig`, `InitConfigByName`,
`UnmarshalConfig`).

Conventions of the embedding.

* Go closures are opaque values; they are represented by `Func` and given a
  meaning by a parameter `sem`, which maps a closure, the context it is called
  with and the store it can see to the store it leaves and the value it panicked
  with, if any.  Closures act on that store only: they do not call back into the
  event bus.
* Every function of `boot.go` that has effects returns, next to its result, the
  list of effects it performed (`Effect`), in the order of the statements of the
  source.
* A Go slice is `Option (List α)`: `none` is the `nil` slice.
* Pointers held by a `Bootstrap` (`engine`, `globalApp`) are taken to be non-nil,
  as `Default` and `NewApplicationWithOpts` build them.
-/

namespace bootstrap

/-! ## Values -/

/-- An `mevent.EventType` is a Go string. -/
abbrev EventType := String

def BootupEvent : EventType := "bootup"

def ShutdownEvent : EventType := "shutdown"

def StartupEvent : EventType := "startup"

/-- A value of `*global.Context`, identified by a number. -/
abbrev Context := Nat

/-- A closure of type `func(ctx *global.Context)` (`BootOption`, `StartFunc` and
`ShutDownFunc` all have this underlying type): one supplied by the caller, or one
of the two closures that `Discovery` builds. -/
inductive Func where
  | closure (id : Nat)
  | registerInstance (registry : Nat) (serviceInstance : Nat)
  | deregister (registry : Nat)
  deriving DecidableEq, Repr

/-- A `gin.HandlerFunc`: the two middlewares installed by `newGin`, or one
supplied by the caller. -/
inductive HandlerFunc where
  | LoggerMiddleWare
  | GinRecovery
  | user (id : Nat)
  deriving DecidableEq, Repr

/-- A Go slice; `none` is `nil`. -/
abbrev Slice (α : Type) := Option (List α)

/-- The elements of a slice, in order (what `range` visits). -/
def Slice.elems {α : Type} (s : Slice α) : List α := s.getD []

/-- Go's `append(s, xs...)`: `nil` only when `s` is `nil` and nothing is appended. -/
def Slice.append {α : Type} (s xs : Slice α) : Slice α :=
  match s, xs.elems with
  | none, [] => none
  | _, ys => some (s.elems ++ ys)

/-- The three handler wrappers `BootEventHandler`, `ShutDownEventHandler` and
`StartEventHandler`; each embeds the closure it was built from. -/
inductive Event where
  | BootEventHandler (BootOption : Func)
  | ShutDownEventHandler (ShutDownFunc : Func)
  | StartEventHandler (StartFunc : Func)
  deriving DecidableEq, Repr

/-- The three `OnEvent` methods: the closure that is called and the context it is
called with (`b.BootOption(ctx)`, `b.ShutDownFunc(ctx)`, `b.StartFunc(ctx)`). -/
def Event.OnEvent : Event → Context → Func × Context
  | .BootEventHandler BootOption, ctx => (BootOption, ctx)
  | .ShutDownEventHandler ShutDownFunc, ctx => (ShutDownFunc, ctx)
  | .StartEventHandler StartFunc, ctx => (StartFunc, ctx)

/-- The function `parseEvent`: a switch on the event type, `nil` for any other type. -/
def parseEvent (fc : Func) (eventType : EventType) : Option Event :=
  if eventType = BootupEvent then some (.BootEventHandler fc)
  else if eventType = ShutdownEvent then some (.ShutDownEventHandler fc)
  else if eventType = StartupEvent then some (.StartEventHandler fc)
  else none

/-! ## Configuration values -/

/-- Modelled from the spec: the `app` section of `config.Config` (package `config`
is not part of the sources at hand); `boot.go` reads `Config.App.Port`. -/
structure AppConfig where
  Port : Int
  deriving DecidableEq, Repr

/-- Modelled from the spec: `config.Config`, the typed configuration object.  Only
the two sections `boot.go` uses are kept: `App` and `Cloud`; the type `K` of the
`Cloud` section is left open. -/
structure Config (K : Type) where
  App : AppConfig
  Cloud : K
  deriving DecidableEq, Repr

/-- A viper instance as far as `config.go` uses it: the file it was pointed at, the
type it was told, the settings it read, whether it is watching the file and
whether a change callback (which calls `UnmarshalConfig`) is installed. -/
structure Viper (D : Type) where
  configFile : String
  configType : String
  settings : D
  watching : Bool
  onConfigChange : Bool
  deriving DecidableEq, Repr

/-- The value `global.App` points to, as far as package `bootstrap` uses it. -/
structure Application (K D : Type) where
  Config : Config K
  ConfigViper : Option (Viper D)
  deriving DecidableEq, Repr

/-! ## The builder -/

structure Bootstrap (K D : Type) where
  engine : List HandlerFunc
  bootOpts : Slice Func
  startOpts : Slice Func
  shutDownOpts : Slice Func
  middleWares : Slice HandlerFunc
  globalApp : Application K D
  serviceInstance : Option Nat
  registry : Option Nat
  deriving DecidableEq, Repr

def newGin : List HandlerFunc := [.LoggerMiddleWare, .GinRecovery]

def NewApplication {K D : Type} (engine : List HandlerFunc) (bootOpts : Slice Func)
    (startOpts : Slice Func) (globalApp : Application K D) : Bootstrap K D :=
  { engine := engine
    bootOpts := bootOpts
    startOpts := startOpts
    shutDownOpts := none
    middleWares := none
    globalApp := globalApp
    serviceInstance := none
    registry := none }

/-- The constructor `NewApplicationWithOpts(opts...)`; `globalApp` is `global.App`. -/
def NewApplicationWithOpts {K D : Type} (globalApp : Application K D) (opts : Slice Func) :
    Bootstrap K D :=
  NewApplication newGin opts (some []) globalApp

def Default {K D : Type} (globalApp : Application K D) : Bootstrap K D :=
  NewApplicationWithOpts globalApp none

def Bootstrap.BootOpt {K D : Type} (app : Bootstrap K D) (bootOpts : Slice Func) :
    Bootstrap K D :=
  if app.bootOpts = none then { app with bootOpts := bootOpts }
  else { app with bootOpts := Slice.append app.bootOpts bootOpts }

def Bootstrap.StartFunc {K D : Type} (app : Bootstrap K D) (startOpts : Slice Func) :
    Bootstrap K D :=
  if app.startOpts = none then { app with startOpts := startOpts }
  else { app with startOpts := Slice.append app.startOpts startOpts }

def Bootstrap.ShutDownFunc {K D : Type} (app : Bootstrap K D) (shutDownOpts : Slice Func) :
    Bootstrap K D :=
  if app.shutDownOpts = none then { app with shutDownOpts := shutDownOpts }
  else { app with shutDownOpts := Slice.append app.shutDownOpts shutDownOpts }

def Bootstrap.Use {K D : Type} (app : Bootstrap K D) (middleware : Slice HandlerFunc) :
    Bootstrap K D :=
  if app.middleWares = none then { app with middleWares := middleware }
  else { app with middleWares := Slice.append app.middleWares middleware }

def Bootstrap.Discovery {K D : Type} (app : Bootstrap K D) (serviceInstance registry : Nat) :
    Bootstrap K D :=
  let app1 := { app with serviceInstance := some serviceInstance, registry := some registry }
  let app2 := app1.StartFunc (some [Func.registerInstance registry serviceInstance])
  app2.ShutDownFunc (some [Func.deregister registry])

/-! ## Effects and the event bus -/

/-- What a run does, one entry per call that is visible from outside `BootUp`. -/
inductive Effect where
  | notifyContext
  | publish (eventType : EventType)
  | onEvent (eventType : EventType) (event : Event) (ctx : Context)
  | call (fc : Func) (ctx : Context)
  | returned (fc : Func)
  | panicked (eventType : EventType) (msg : String)
  | engineUse (middleWare : HandlerFunc)
  | setupRouter
  | logInfo (msg : String)
  | goListenAndServe (addr : String)
  | ctxDone
  | stop
  | cancel
  | logPrintln (msg : String)
  | serverShutdown
  | logFatal (msg : String)
  deriving DecidableEq, Repr

/-- How a control flow ends: it returns, it unwinds with a panic, the process
exits (`log.Fatal` is `os.Exit(1)`), or it waits for ever. -/
inductive Outcome where
  | returned
  | panic (msg : String)
  | exit (code : Nat)
  | blocked
  deriving DecidableEq, Repr

/-- Modelled from the spec: the registry of the event bus `mevent` (not part of
the sources at hand), "a mapping from Phase to an ordered sequence of Handler".  An
entry is `none` when the `nil` event was registered. -/
abbrev Registry := EventType → List (Option Event)

/-- Modelled from the spec: `mevent.AddBlock`, which "appends `handler` to the
ordered list for `phase`" and never fails. -/
def AddBlock (eventType : EventType) (event : Option Event) (reg : Registry) : Registry :=
  fun t => if t = eventType then reg t ++ [event] else reg t

/-- The process state a run of `BootUp` works on, next to the `Bootstrap` itself: the
registry of the process-wide event bus and the store the closures can see. -/
structure World (σ : Type) where
  registry : Registry
  store : σ

/-- The meaning of the closures: the store a call leaves, and the value it
panicked with, if it did. -/
abbrev Sem (σ : Type) := Func → Context → σ → σ × Option String

/-- What a publish leaves behind. -/
structure Published (σ : Type) where
  store : σ
  trace : List Effect
  outcome : Outcome

/-- Modelled from the spec: the loop of `mevent.Publish` over the handlers of one
phase: it "invokes every handler registered under `phase`, in registration order,
each call fully completing before the next handler begins"; a handler that fails
"aborts the publish", is "surfaced to the caller", and "handlers after the failing
one are NOT invoked".  Calling `OnEvent` on the `nil` event is a nil dereference. -/
def dispatch {σ : Type} (sem : Sem σ) (ctx : Context) (eventType : EventType) :
    List (Option Event) → σ → Published σ
  | [], s => { store := s, trace := [], outcome := .returned }
  | none :: _, s =>
    { store := s
      trace := [.panicked eventType "invalid memory address or nil pointer dereference"]
      outcome := .panic "invalid memory address or nil pointer dereference" }
  | some event :: rest, s =>
    let target := event.OnEvent ctx
    match sem target.1 target.2 s with
    | (s1, some msg) =>
      { store := s1
        trace := [.onEvent eventType event ctx, .call target.1 target.2,
                  .panicked eventType msg]
        outcome := .panic msg }
    | (s1, none) =>
      let r := dispatch sem ctx eventType rest s1
      { r with trace := .onEvent eventType event ctx :: .call target.1 target.2 ::
                        .returned target.1 :: r.trace }

/-- Modelled from the spec: `mevent.Publish(eventType)`, a blocking call on the
caller's control flow that reads the registry and changes nothing in it. -/
def Publish {σ : Type} (sem : Sem σ) (ctx : Context) (eventType : EventType) (w : World σ) :
    Published σ :=
  let r := dispatch sem ctx eventType (w.registry eventType) w.store
  { r with trace := .publish eventType :: r.trace }

/-! ## BootUp -/

/-- What the surroundings decide during one run of `BootUp`: the context the bus
hands to handlers, whether SIGINT or SIGTERM is ever delivered, and the error
`server.Shutdown` returns. -/
structure Env where
  ctx : Context
  signal : Bool
  shutdownErr : Option String
  deriving DecidableEq, Repr

/-- One of the three registration loops of `BootUp`:
`for _, opt := range opts { event := parseEvent(opt, t); mevent.AddBlock(t, event) }`. -/
def registerAll (eventType : EventType) (opts : List Func) (reg : Registry) : Registry :=
  opts.foldl (fun r opt => AddBlock eventType (parseEvent opt eventType) r) reg

/-- The loop `for _, middleWare := range app.middleWares { app.engine.Use(middleWare) }`. -/
def useAll (middleWares : List HandlerFunc) (engine : List HandlerFunc) : List HandlerFunc :=
  middleWares.foldl (fun e middleWare => e ++ [middleWare]) engine

/-- The address of the server, `":" + strconv.Itoa(app.globalApp.Config.App.Port)`. -/
def serverAddr {K D : Type} (app : Bootstrap K D) : String :=
  ":" ++ toString app.globalApp.Config.App.Port

/-- A finished (or stuck) run of `BootUp`. -/
structure Run (σ K D : Type) where
  app : Bootstrap K D
  world : World σ
  trace : List Effect
  outcome : Outcome

/-- The main control flow of `BootUp`, statement by statement.  A panic unwinds
through the deferred `stop()` (and `cancel()` once it is deferred); `log.Fatal`
exits without running deferred calls. -/
def Bootstrap.BootUp {σ K D : Type} (sem : Sem σ) (env : Env) (app : Bootstrap K D)
    (w : World σ) : Run σ K D :=
  let t0 : List Effect := [.notifyContext]
  let w1 : World σ := { w with registry := registerAll BootupEvent app.bootOpts.elems w.registry }
  let p1 := Publish sem env.ctx BootupEvent w1
  let w2 : World σ := { w1 with store := p1.store }
  match p1.outcome with
  | .panic msg => { app := app, world := w2, trace := t0 ++ p1.trace ++ [.stop], outcome := .panic msg }
  | _ =>
    let app3 := { app with engine := useAll app.middleWares.elems app.engine }
    let t3 := t0 ++ p1.trace ++ app.middleWares.elems.map Effect.engineUse ++ [.setupRouter]
    let w4 : World σ :=
      { w2 with registry := registerAll StartupEvent app.startOpts.elems w2.registry }
    let p4 := Publish sem env.ctx StartupEvent w4
    let w5 : World σ := { w4 with store := p4.store }
    match p4.outcome with
    | .panic msg =>
      { app := app3, world := w5, trace := t3 ++ p4.trace ++ [.stop], outcome := .panic msg }
    | _ =>
      let t6 := t3 ++ p4.trace ++
        [.logInfo "starting ------ ----- --- ", .goListenAndServe (serverAddr app3)]
      if env.signal = false then
        { app := app3, world := w5, trace := t6, outcome := .blocked }
      else
        let w7 : World σ :=
          { w5 with registry := registerAll ShutdownEvent app.shutDownOpts.elems w5.registry }
        let p7 := Publish sem env.ctx ShutdownEvent w7
        let w8 : World σ := { w7 with store := p7.store }
        match p7.outcome with
        | .panic msg =>
          { app := app3, world := w8, trace := t6 ++ [.ctxDone] ++ p7.trace ++ [.stop],
            outcome := .panic msg }
        | _ =>
          let t9 := t6 ++ [.ctxDone] ++ p7.trace ++
            [.stop, .logPrintln "application is shutting down", .serverShutdown]
          match env.shutdownErr with
          | some err =>
            { app := app3, world := w8,
              trace := t9 ++ [.logFatal ("application forced to shutdown: " ++ err)],
              outcome := .exit 1 }
          | none =>
            { app := app3, world := w8,
              trace := t9 ++ [.logPrintln "application exiting", .cancel, .stop],
              outcome := .returned }

/-- An error value of net/http: the one `ListenAndServe` returns after `Shutdown`
or `Close` ("http: Server closed"). -/
def ErrServerClosed : String := "http: Server closed"

/-- The goroutine `BootUp` starts:
`err := server.ListenAndServe(); if err != nil { log.Fatal("application run failed!", err) }`.
The argument is the error `ListenAndServe` returned, `none` for `nil`. -/
def serveGoroutine (err : Option String) : List Effect × Outcome :=
  match err with
  | some e => ([.logFatal ("application run failed!" ++ e)], .exit 1)
  | none => ([], .returned)

/-! ## config.go -/

/-- The environment block of the process, `name=value` entries. -/
abbrev Environ := List (String × String)

/-- The function `os.LookupEnv`: the value of a variable that is set. -/
def LookupEnv (environ : Environ) (key : String) : Option String := environ.lookup key

/-- The function `os.Getenv`: the value, "which will be empty if the variable is
not present". -/
def Getenv (environ : Environ) (key : String) : String := (LookupEnv environ key).getD ""

/-- The two calls into viper whose results `config.go` depends on.  `ReadInConfig`
reads and parses the named file.  `Unmarshal settings target` is
`v.Unmarshal(&target)`: it decodes into the object the pointer designates and
yields that object as the call leaves it, with the error it returns. -/
structure ViperLib (K D : Type) where
  ReadInConfig : String → Except String D
  Unmarshal : D → Config K → Config K × Option String

/-- The function `UnmarshalConfig`.  The pointer handed to viper is
`&global.App.Config`, the live object; an error is printed and dropped.  The result
is `global.App` after the call and the lines printed; `Except.error` would be a
panic. -/
def UnmarshalConfig {K D : Type} (lib : ViperLib K D) (v : Viper D) (g : Application K D) :
    Except String (Application K D × List String) :=
  let r := lib.Unmarshal v.settings g.Config
  let g1 := { g with Config := r.1 }
  match r.2 with
  | some unmarshalErr => .ok (g1, [unmarshalErr])
  | none => .ok (g1, [])

/-- The function `InitConfigByName`; `Except.error` is the panic on a failed read. -/
def InitConfigByName {K D : Type} (lib : ViperLib K D) (fileName : String)
    (g : Application K D) : Except String (Viper D × Application K D × List String) :=
  match lib.ReadInConfig fileName with
  | .error err => .error ("read config file failed: " ++ err ++ " \n")
  | .ok settings =>
    let v : Viper D :=
      { configFile := fileName, configType := "yaml", settings := settings,
        watching := true, onConfigChange := true }
    match UnmarshalConfig lib v g with
    | .error e => .error e
    | .ok (g1, out) => .ok (v, g1, out)

/-- The local variable `configFile` of `InitConfig` when `InitConfigByName` is called. -/
def InitConfig.configFile (environ : Environ) : String :=
  let configFile := "config.yaml"
  let envConfigFile := Getenv environ "CONFIG_FILE"
  if envConfigFile ≠ "" then envConfigFile else configFile

/-- The function `InitConfig`: `global.App` after the call and the lines written. -/
def InitConfig {K D : Type} (lib : ViperLib K D) (environ : Environ) (g : Application K D) :
    Except String (Application K D × List String) :=
  let configFile := InitConfig.configFile environ
  match InitConfigByName lib configFile g with
  | .error e => .error e
  | .ok (v, g1, out) =>
    .ok ({ g1 with ConfigViper := some v },
      ["initing config, use log file " ++ configFile ++ " \n"] ++ out ++
        ["init config complete \n"])

/-! ## Observations on traces -/

/-- The effect starts the listener. -/
def Effect.isListen : Effect → Bool
  | .goListenAndServe _ => true
  | _ => false

/-- The effect is the invocation of a handler during the publish of `eventType`. -/
def Effect.isInvocation (eventType : EventType) : Effect → Bool
  | .onEvent t _ _ => t = eventType
  | _ => false

/-- The effect belongs to the execution of a handler: its wrapper is entered, the
closure is called, the closure returns. -/
def Effect.isHandlerEvent : Effect → Bool
  | .onEvent _ _ _ => true
  | .call _ _ => true
  | .returned _ => true
  | _ => false

/-- The effect is a panic raised during a publish. -/
def Effect.isPanic : Effect → Bool
  | .panicked _ _ => true
  | _ => false

/-- The effect is a panic raised during the publish of `eventType`. -/
def Effect.isPanicIn (eventType : EventType) : Effect → Bool
  | .panicked t _ => t = eventType
  | _ => false

/-- The effect is a `log.Fatal`. -/
def Effect.isFatal : Effect → Bool
  | .logFatal _ => true
  | _ => false

/-- The store after calling the closures of a list one after the other. -/
def runAll {σ : Type} (sem : Sem σ) (ctx : Context) (fs : List Func) (s : σ) : σ :=
  fs.foldl (fun acc fc => (sem fc ctx acc).1) s

/-- The list `l` written `n` times in a row. -/
def repeatList {α : Type} : Nat → List α → List α
  | 0, _ => []
  | n + 1, l => repeatList n l ++ l

/-- Whether control comes back to the caller of `BootUp` with the process certain to
be able to run `BootUp` again: the run unwound with a panic, which the caller can
recover, before the serve goroutine was started.  After a run that started the
goroutine no further run is considered: the goroutine ends the process with
`log.Fatal` as soon as `ListenAndServe` returns, which it does once `server.Shutdown`
is called, and at once in a later run whose listener finds the port taken; a run
that exits or waits for ever does not come back at all. -/
def Run.admitsNext {σ K D : Type} (r : Run σ K D) : Bool :=
  match r.outcome with
  | .panic _ => !(r.trace.any Effect.isListen)
  | _ => false

/-- The `Bootstrap` and the world in which run number `n + 1` of `BootUp` starts, in
one process; `none` when one of the `n` runs before it admits no further run. -/
def afterRuns {σ K D : Type} (sem : Sem σ) (env : Env) (app : Bootstrap K D) (w : World σ) :
    Nat → Option (Bootstrap K D × World σ)
  | 0 => some (app, w)
  | n + 1 =>
    match afterRuns sem env app w n with
    | none => none
    | some prev =>
      let r := prev.1.BootUp sem env prev.2
      if r.admitsNext = true then some (r.app, r.world) else none

/-- The run number `n + 1` of `BootUp` on the same `Bootstrap` in the same process, if
the process gets that far. -/
def nthRun {σ K D : Type} (sem : Sem σ) (env : Env) (app : Bootstrap K D) (w : World σ)
    (n : Nat) : Option (Run σ K D) :=
  match afterRuns sem env app w n with
  | none => none
  | some prev => some (prev.1.BootUp sem env prev.2)

/-! ## The stages of a run -/

/-- The world in which `BootUp` publishes the boot phase. -/
def bootWorld {σ K D : Type} (app : Bootstrap K D) (w : World σ) : World σ :=
  { registry := registerAll BootupEvent app.bootOpts.elems w.registry, store := w.store }

/-- The publish of the boot phase in `BootUp`. -/
def bootPublish {σ K D : Type} (sem : Sem σ) (env : Env) (app : Bootstrap K D) (w : World σ) :
    Published σ :=
  Publish sem env.ctx BootupEvent (bootWorld app w)

/-- The world in which `BootUp` publishes the startup phase. -/
def startWorld {σ K D : Type} (sem : Sem σ) (env : Env) (app : Bootstrap K D) (w : World σ) :
    World σ :=
  { registry := registerAll StartupEvent app.startOpts.elems (bootWorld app w).registry,
    store := (bootPublish sem env app w).store }

/-- The publish of the startup phase in `BootUp`. -/
def startPublish {σ K D : Type} (sem : Sem σ) (env : Env) (app : Bootstrap K D) (w : World σ) :
    Published σ :=
  Publish sem env.ctx StartupEvent (startWorld sem env app w)

/-- The world in which `BootUp` publishes the shutdown phase. -/
def shutWorld {σ K D : Type} (sem : Sem σ) (env : Env) (app : Bootstrap K D) (w : World σ) :
    World σ :=
  { registry := registerAll ShutdownEvent app.shutDownOpts.elems (startWorld sem env app w).registry,
    store := (startPublish sem env app w).store }

/-- The publish of the shutdown phase in `BootUp`. -/
def shutPublish {σ K D : Type} (sem : Sem σ) (env : Env) (app : Bootstrap K D) (w : World σ) :
    Published σ :=
  Publish sem env.ctx ShutdownEvent (shutWorld sem env app w)

/-- The trace of `BootUp` up to and including the installation of the handler chain. -/
def installedTrace {σ K D : Type} (sem : Sem σ) (env : Env) (app : Bootstrap K D) (w : World σ) :
    List Effect :=
  [.notifyContext] ++ (bootPublish sem env app w).trace ++
    app.middleWares.elems.map Effect.engineUse ++ [.setupRouter]

/-- The trace of `BootUp` up to and including the start of the serve goroutine. -/
def servingTrace {σ K D : Type} (sem : Sem σ) (env : Env) (app : Bootstrap K D) (w : World σ) :
    List Effect :=
  installedTrace sem env app w ++ (startPublish sem env app w).trace ++
    [.logInfo "starting ------ ----- --- ", .goListenAndServe (serverAddr app)]

/-- The trace of `BootUp` up to and including the call of `server.Shutdown`. -/
def drainingTrace {σ K D : Type} (sem : Sem σ) (env : Env) (app : Bootstrap K D) (w : World σ) :
    List Effect :=
  servingTrace sem env app w ++ [.ctxDone] ++ (shutPublish sem env app w).trace ++
    [.stop, .logPrintln "application is shutting down", .serverShutdown]

/-- The effects of invoking, one after the other and each to its return, the
handlers that wrap the closures of a list. -/
def invocations (eventType : EventType) (wrap : Func → Event) (ctx : Context) :
    List Func → List Effect
  | [] => []
  | fc :: rest =>
    .onEvent eventType (wrap fc) ctx :: .call fc ctx :: .returned fc ::
      invocations eventType wrap ctx rest

/-! ## Sample inputs -/

/-- The empty registry of a process that has registered nothing yet. -/
def emptyRegistry : Registry := fun _ => []

/-- A raw value of a configuration document. -/
inductive RawValue where
  | int (n : Int)
  | str (s : String)
  deriving DecidableEq, Repr

/-- A decoder that works the way viper's does (through mapstructure): it visits the
fields of the target one by one, assigns each field whose key is present and
well-typed, records an error for a key whose value has the wrong type and goes on,
and leaves a field whose key is absent as it was. -/
def fieldwiseUnmarshal (settings : List (String × RawValue)) (target : Config String) :
    Config String × Option String :=
  let r1 : Config String × Option String :=
    match settings.lookup "app.port" with
    | some (.int n) => ({ target with App := { Port := n } }, none)
    | some (.str _) => (target, some "app.port: expected type int")
    | none => (target, none)
  match settings.lookup "cloud" with
  | some (.str s) => ({ r1.1 with Cloud := s }, r1.2)
  | some (.int _) => (r1.1, some "cloud: expected type string")
  | none => r1

/-- A decoder that builds the whole object first and writes nothing on error. -/
def allOrNothingUnmarshal (settings : List (String × RawValue)) (target : Config String) :
    Config String × Option String :=
  match fieldwiseUnmarshal settings target with
  | (_, some err) => (target, some err)
  | (c, none) => (c, none)

/-- A file system with one well-formed document at every path. -/
def sampleRead (_ : String) : Except String (List (String × RawValue)) :=
  .ok [("app.port", .int 8080), ("cloud", .str "consul")]

def sampleApplication : Application String (List (String × RawValue)) :=
  { Config := { App := { Port := 8080 }, Cloud := "consul" }, ConfigViper := none }

/-- Closures over a counter: closure `n` adds `n`, and closure 0 panics. -/
def sampleSem : Sem Nat := fun fc _ s =>
  match fc with
  | .closure 0 => (s, some "boom")
  | .closure n => (s + n, none)
  | _ => (s, none)

/-- Closures whose behaviour depends on the store: closure 1 writes 42 to it,
closure 2 panics unless it reads 42, closure 4 panics the first time it is called
(store 0, which it sets to 1) and returns afterwards; any other closure returns. -/
def probeSem : Sem Nat := fun fc _ s =>
  match fc with
  | .closure 1 => (42, none)
  | .closure 2 => if s = 42 then (s, none) else (s, some "probe not set")
  | .closure 4 => if s = 0 then (1, some "not ready") else (s, none)
  | _ => (s, none)

def sampleEnv : Env := { ctx := 7, signal := true, shutdownErr := none }

/-- The surroundings of a run to which no signal is ever delivered. -/
def sampleEnvNoSignal : Env := { ctx := 7, signal := false, shutdownErr := none }

def sampleWorld : World Nat := { registry := emptyRegistry, store := 0 }

/-- A `Bootstrap` with one handler for each phase. -/
def sampleApp : Bootstrap String (List (String × RawValue)) :=
  (((Default sampleApplication).BootOpt (some [.closure 1])).StartFunc
    (some [.closure 2])).ShutDownFunc (some [.closure 3])

/-- A `Bootstrap` whose only boot handler panics. -/
def sampleBootFail : Bootstrap String (List (String × RawValue)) :=
  ((Default sampleApplication).BootOpt (some [.closure 0])).StartFunc (some [.closure 2])

/-- A `Bootstrap` whose second boot handler panics. -/
def sampleBootHalf : Bootstrap String (List (String × RawValue)) :=
  ((Default sampleApplication).BootOpt (some [.closure 1, .closure 0])).StartFunc
    (some [.closure 2])

/-- A `Bootstrap` whose only boot handler is closure 4. -/
def sampleRetry : Bootstrap String (List (String × RawValue)) :=
  ((Default sampleApplication).BootOpt (some [.closure 4])).StartFunc (some [.closure 3])

/-- The second run of `sampleRetry`, after a first run whose boot handler panicked. -/
def sampleRetrySecond : Run Nat String (List (String × RawValue)) :=
  (sampleRetry.BootUp probeSem sampleEnv sampleWorld).app.BootUp probeSem sampleEnv
    (sampleRetry.BootUp probeSem sampleEnv sampleWorld).world

/-- A `Bootstrap` whose only shutdown handler panics. -/
def sampleShutFail : Bootstrap String (List (String × RawValue)) :=
  ((Default sampleApplication).StartFunc (some [.closure 2])).ShutDownFunc (some [.closure 0])

/-- The two viper calls, with a decoder that writes field by field. -/
def fieldwiseLib : ViperLib String (List (String × RawValue)) :=
  { ReadInConfig := sampleRead, Unmarshal := fieldwiseUnmarshal }

/-- The two viper calls, with a decoder that writes nothing on error. -/
def allOrNothingLib : ViperLib String (List (String × RawValue)) :=
  { ReadInConfig := sampleRead, Unmarshal := allOrNothingUnmarshal }

/-- A viper instance that has just read a document whose port is not a number and
whose `cloud` section changed. -/
def sampleBadReload : Viper (List (String × RawValue)) :=
  { configFile := "config.yaml", configType := "yaml",
    settings := [("app.port", .str "oops"), ("cloud", .str "consul-b")],
    watching := true, onConfigChange := true }

/-- The zero value `config.Config{}`, a fresh object. -/
def zeroConfig : Config String := { App := { Port := 0 }, Cloud := "" }

/-- The configuration a reader finds in `global.App` after a call that returned. -/
def configAfter {K D : Type} (r : Except String (Application K D × List String)) :
    Option (Config K) :=
  match r with
  | .ok (g, _) => some g.Config
  | .error _ => none

/-- The file a successful `InitConfig` left viper pointed at. -/
def loadedFrom {K D : Type} (r : Except String (Application K D × List String)) :
    Option String :=
  match r with
  | .ok (g, _) => g.ConfigViper.map (fun v => v.configFile)
  | .error _ => none

/-! ## Lemmas on the event bus and on the paths of `BootUp` -/

theorem parseEvent_bootup (fc : Func) :
    parseEvent fc BootupEvent = some (.BootEventHandler fc) := by
  simp [parseEvent]

theorem parseEvent_startup (fc : Func) :
    parseEvent fc StartupEvent = some (.StartEventHandler fc) := by
  simp [parseEvent, StartupEvent, BootupEvent, ShutdownEvent]

theorem parseEvent_shutdown (fc : Func) :
    parseEvent fc ShutdownEvent = some (.ShutDownEventHandler fc) := by
  simp [parseEvent, StartupEvent, BootupEvent, ShutdownEvent]

theorem registerAll_apply (t : EventType) (opts : List Func) (reg : Registry) (t' : EventType) :
    registerAll t opts reg t' =
      if t' = t then reg t' ++ opts.map (fun fc => parseEvent fc t) else reg t' := by
  induction opts generalizing reg with
  | nil => simp [registerAll]
  | cons a l ih =>
    have h := ih (AddBlock t (parseEvent a t) reg)
    simp only [registerAll, List.foldl_cons] at h ⊢
    rw [h]
    by_cases ht : t' = t <;> simp [AddBlock, ht]

theorem dispatch_outcome {σ : Type} (sem : Sem σ) (ctx : Context) (t : EventType)
    (es : List (Option Event)) (s : σ) :
    (dispatch sem ctx t es s).outcome = .returned ∨
      ∃ msg, (dispatch sem ctx t es s).outcome = .panic msg := by
  induction es generalizing s with
  | nil => simp [dispatch]
  | cons a l ih =>
    cases a with
    | none => simp [dispatch]
    | some e =>
      simp only [dispatch]
      rcases h : sem (e.OnEvent ctx).1 (e.OnEvent ctx).2 s with ⟨s1, _ | msg⟩
      · simpa using ih s1
      · simp

theorem dispatch_mem {σ : Type} (sem : Sem σ) (ctx : Context) (t : EventType)
    (es : List (Option Event)) (s : σ) (e : Effect) (he : e ∈ (dispatch sem ctx t es s).trace) :
    (∃ ev, e = .onEvent t ev ctx) ∨ (∃ fc c, e = .call fc c) ∨ (∃ fc, e = .returned fc) ∨
      (∃ msg, e = .panicked t msg ∧ (dispatch sem ctx t es s).outcome = .panic msg) := by
  induction es generalizing s with
  | nil => simp [dispatch] at he
  | cons a l ih =>
    cases a with
    | none =>
      simp only [dispatch, List.mem_singleton] at he ⊢
      subst he
      simp
    | some ev =>
      simp only [dispatch] at he ⊢
      rcases h : sem (ev.OnEvent ctx).1 (ev.OnEvent ctx).2 s with ⟨s1, _ | msg⟩
      · rw [h] at he
        simp only [List.mem_cons] at he
        rcases he with rfl | rfl | rfl | he
        · exact Or.inl ⟨ev, rfl⟩
        · exact Or.inr (Or.inl ⟨_, _, rfl⟩)
        · exact Or.inr (Or.inr (Or.inl ⟨_, rfl⟩))
        · exact ih s1 he
      · rw [h] at he
        simp only [List.mem_cons, List.mem_singleton, List.not_mem_nil, or_false] at he
        rcases he with rfl | rfl | rfl
        · exact Or.inl ⟨ev, rfl⟩
        · exact Or.inr (Or.inl ⟨_, _, rfl⟩)
        · exact Or.inr (Or.inr (Or.inr ⟨msg, rfl, rfl⟩))


theorem Publish_outcome {σ : Type} (sem : Sem σ) (ctx : Context) (t : EventType) (w : World σ) :
    (Publish sem ctx t w).outcome = .returned ∨ ∃ msg, (Publish sem ctx t w).outcome = .panic msg := by
  simpa [Publish] using dispatch_outcome sem ctx t (w.registry t) w.store

theorem Publish_mem {σ : Type} (sem : Sem σ) (ctx : Context) (t : EventType) (w : World σ)
    (e : Effect) (he : e ∈ (Publish sem ctx t w).trace) :
    e = .publish t ∨ (∃ ev, e = .onEvent t ev ctx) ∨ (∃ fc c, e = .call fc c) ∨
      (∃ fc, e = .returned fc) ∨
      (∃ msg, e = .panicked t msg ∧ (Publish sem ctx t w).outcome = .panic msg) := by
  simp only [Publish, List.mem_cons] at he ⊢
  rcases he with rfl | he
  · exact Or.inl rfl
  · exact Or.inr (dispatch_mem sem ctx t _ _ e he)

theorem BootUp_cases {σ K D : Type} (sem : Sem σ) (env : Env) (app : Bootstrap K D)
    (w : World σ) :
    (∃ m, (bootPublish sem env app w).outcome = .panic m ∧
        (app.BootUp sem env w).outcome = .panic m ∧
        (app.BootUp sem env w).trace =
          [.notifyContext] ++ (bootPublish sem env app w).trace ++ [.stop]) ∨
    ((bootPublish sem env app w).outcome = .returned ∧
      ((∃ m, (startPublish sem env app w).outcome = .panic m ∧
          (app.BootUp sem env w).outcome = .panic m ∧
          (app.BootUp sem env w).trace =
            installedTrace sem env app w ++ (startPublish sem env app w).trace ++ [.stop]) ∨
       ((startPublish sem env app w).outcome = .returned ∧
        ((env.signal = false ∧ (app.BootUp sem env w).outcome = .blocked ∧
            (app.BootUp sem env w).trace = servingTrace sem env app w) ∨
         (env.signal = true ∧
          ((∃ m, (shutPublish sem env app w).outcome = .panic m ∧
              (app.BootUp sem env w).outcome = .panic m ∧
              (app.BootUp sem env w).trace =
                servingTrace sem env app w ++ [.ctxDone] ++
                  (shutPublish sem env app w).trace ++ [.stop]) ∨
           ((shutPublish sem env app w).outcome = .returned ∧
            ((∃ err, env.shutdownErr = some err ∧
                (app.BootUp sem env w).outcome = .exit 1 ∧
                (app.BootUp sem env w).trace = drainingTrace sem env app w ++
                  [.logFatal ("application forced to shutdown: " ++ err)]) ∨
             (env.shutdownErr = none ∧ (app.BootUp sem env w).outcome = .returned ∧
                (app.BootUp sem env w).trace = drainingTrace sem env app w ++
                  [.logPrintln "application exiting", .cancel, .stop]))))))))) := by
  rcases Publish_outcome sem env.ctx BootupEvent (bootWorld app w) with h1 | ⟨m1, h1⟩
  · right
    refine ⟨h1, ?_⟩
    rcases Publish_outcome sem env.ctx StartupEvent (startWorld sem env app w) with h4 | ⟨m4, h4⟩
    · right
      refine ⟨h4, ?_⟩
      cases hs : env.signal
      · left
        simp only [bootPublish, bootWorld, startPublish, startWorld] at h1 h4
        simp [Bootstrap.BootUp, h1, h4, hs, servingTrace, installedTrace, bootPublish, bootWorld,
          startPublish, startWorld, serverAddr]
      · right
        refine ⟨rfl, ?_⟩
        rcases Publish_outcome sem env.ctx ShutdownEvent (shutWorld sem env app w) with
          h7 | ⟨m7, h7⟩
        · right
          refine ⟨h7, ?_⟩
          simp only [bootPublish, bootWorld, startPublish, startWorld, shutPublish, shutWorld]
            at h1 h4 h7
          cases he : env.shutdownErr
          · right
            simp [Bootstrap.BootUp, h1, h4, h7, hs, he, servingTrace, installedTrace, drainingTrace,
              bootPublish, bootWorld, startPublish, startWorld, shutPublish, shutWorld, serverAddr]
          · left
            simp [Bootstrap.BootUp, h1, h4, h7, hs, he, servingTrace, installedTrace, drainingTrace,
              bootPublish, bootWorld, startPublish, startWorld, shutPublish, shutWorld, serverAddr]
        · left
          refine ⟨m7, h7, ?_⟩
          simp only [bootPublish, bootWorld, startPublish, startWorld, shutPublish, shutWorld]
            at h1 h4 h7
          simp [Bootstrap.BootUp, h1, h4, h7, hs, servingTrace, installedTrace,
            bootPublish, bootWorld, startPublish, startWorld, shutPublish, shutWorld, serverAddr]
    · left
      refine ⟨m4, h4, ?_⟩
      simp only [bootPublish, bootWorld, startPublish, startWorld] at h1 h4
      simp [Bootstrap.BootUp, h1, h4, installedTrace, bootPublish, bootWorld,
        startPublish, startWorld]
  · left
    refine ⟨m1, h1, ?_⟩
    simp only [bootPublish, bootWorld] at h1
    simp [Bootstrap.BootUp, h1, bootPublish, bootWorld]


theorem Publish_any_isListen {σ : Type} (sem : Sem σ) (ctx : Context) (t : EventType)
    (w : World σ) : (Publish sem ctx t w).trace.any Effect.isListen = false := by
  rw [List.any_eq_false]
  intro e he
  rcases Publish_mem sem ctx t w e he with rfl | ⟨ev, rfl⟩ | ⟨fc, c, rfl⟩ | ⟨fc, rfl⟩ |
    ⟨msg, rfl, _⟩ <;> simp [Effect.isListen]

theorem Publish_any_isInvocation {σ : Type} (sem : Sem σ) (ctx : Context) (t t' : EventType)
    (w : World σ) (h : t ≠ t') :
    (Publish sem ctx t w).trace.any (Effect.isInvocation t') = false := by
  rw [List.any_eq_false]
  intro e he
  rcases Publish_mem sem ctx t w e he with rfl | ⟨ev, rfl⟩ | ⟨fc, c, rfl⟩ | ⟨fc, rfl⟩ |
    ⟨msg, rfl, _⟩ <;> simp [Effect.isInvocation, h]

theorem Publish_panicked {σ : Type} (sem : Sem σ) (ctx : Context) (t t' : EventType)
    (w : World σ) (msg : String) (h : Effect.panicked t' msg ∈ (Publish sem ctx t w).trace) :
    t' = t ∧ (Publish sem ctx t w).outcome = .panic msg := by
  rcases Publish_mem sem ctx t w _ h with h | ⟨ev, h⟩ | ⟨fc, c, h⟩ | ⟨fc, h⟩ | ⟨m, h, ho⟩
  · cases h
  · cases h
  · cases h
  · cases h
  · cases h
    exact ⟨rfl, ho⟩

theorem Publish_any_shutdown {σ : Type} (sem : Sem σ) (ctx : Context) (t : EventType)
    (w : World σ) : Effect.serverShutdown ∉ (Publish sem ctx t w).trace := by
  intro he
  rcases Publish_mem sem ctx t w _ he with h | ⟨ev, h⟩ | ⟨fc, c, h⟩ | ⟨fc, h⟩ | ⟨m, h, _⟩ <;>
    cases h

theorem events_ne : BootupEvent ≠ StartupEvent ∧ BootupEvent ≠ ShutdownEvent ∧
    StartupEvent ≠ ShutdownEvent := by
  decide

theorem BootUp_app {σ K D : Type} (sem : Sem σ) (env : Env) (app : Bootstrap K D)
    (w : World σ) :
    (app.BootUp sem env w).app.bootOpts = app.bootOpts ∧
      (app.BootUp sem env w).app.startOpts = app.startOpts ∧
      (app.BootUp sem env w).app.shutDownOpts = app.shutDownOpts ∧
      (app.BootUp sem env w).app.middleWares = app.middleWares := by
  unfold Bootstrap.BootUp
  simp only []
  repeat' split
  all_goals simp

theorem BootUp_world {σ K D : Type} (sem : Sem σ) (env : Env) (app : Bootstrap K D)
    (w : World σ) (h1 : (bootPublish sem env app w).outcome = .returned)
    (h4 : (startPublish sem env app w).outcome = .returned) (hs : env.signal = true)
    (h7 : (shutPublish sem env app w).outcome = .returned) :
    (app.BootUp sem env w).world.registry = (shutWorld sem env app w).registry ∧
      (app.BootUp sem env w).world.store = (shutPublish sem env app w).store := by
  simp only [bootPublish, bootWorld, startPublish, startWorld, shutPublish, shutWorld] at h1 h4 h7
  cases he : env.shutdownErr <;>
    simp [Bootstrap.BootUp, h1, h4, h7, hs, he, bootPublish, bootWorld, startPublish, startWorld,
      shutPublish, shutWorld]


theorem bootWorld_registry {σ K D : Type} (app : Bootstrap K D) (w : World σ) (t : EventType) :
    (bootWorld app w).registry t = w.registry t ++
      (if t = BootupEvent then app.bootOpts.elems.map (fun fc => some (.BootEventHandler fc))
       else []) := by
  simp only [bootWorld, registerAll_apply, parseEvent_bootup]
  split <;> simp

theorem startWorld_registry {σ K D : Type} (sem : Sem σ) (env : Env) (app : Bootstrap K D)
    (w : World σ) (t : EventType) :
    (startWorld sem env app w).registry t = w.registry t ++
      (if t = BootupEvent then app.bootOpts.elems.map (fun fc => some (.BootEventHandler fc))
       else if t = StartupEvent then
         app.startOpts.elems.map (fun fc => some (.StartEventHandler fc))
       else []) := by
  obtain ⟨hbs, hbd, hsd⟩ := events_ne
  simp only [startWorld, registerAll_apply, parseEvent_startup, bootWorld_registry]
  by_cases h1 : t = BootupEvent
  · subst h1
    simp [hbs]
  · by_cases h2 : t = StartupEvent
    · subst h2
      simp [Ne.symm hbs]
    · simp [h1, h2]

theorem shutWorld_registry {σ K D : Type} (sem : Sem σ) (env : Env) (app : Bootstrap K D)
    (w : World σ) (t : EventType) :
    (shutWorld sem env app w).registry t = w.registry t ++
      (if t = BootupEvent then app.bootOpts.elems.map (fun fc => some (.BootEventHandler fc))
       else if t = StartupEvent then
         app.startOpts.elems.map (fun fc => some (.StartEventHandler fc))
       else if t = ShutdownEvent then
         app.shutDownOpts.elems.map (fun fc => some (.ShutDownEventHandler fc))
       else []) := by
  obtain ⟨hbs, hbd, hsd⟩ := events_ne
  simp only [shutWorld, registerAll_apply, parseEvent_shutdown, startWorld_registry]
  by_cases h1 : t = BootupEvent
  · subst h1
    simp [hbd]
  · by_cases h2 : t = StartupEvent
    · subst h2
      simp [hsd, h1]
    · by_cases h3 : t = ShutdownEvent
      · subst h3
        simp [Ne.symm hbd, Ne.symm hsd]
      · simp [h1, h2, h3]

theorem filter_invocations (t : EventType) (wrap : Func → Event) (ctx : Context)
    (fs : List Func) :
    (invocations t wrap ctx fs).filter Effect.isHandlerEvent = invocations t wrap ctx fs := by
  induction fs with
  | nil => simp [invocations]
  | cons a l ih => simp [invocations, Effect.isHandlerEvent, ih]

theorem filter_engineUse (mws : List HandlerFunc) :
    (mws.map Effect.engineUse).filter Effect.isHandlerEvent = [] := by
  induction mws with
  | nil => simp
  | cons a l ih => simp [Effect.isHandlerEvent]

theorem count_repeatList {α : Type} [DecidableEq α] (n : Nat) (l : List α) (x : α) :
    (repeatList n l).count x = n * l.count x := by
  induction n with
  | zero => simp [repeatList]
  | succ k ih => simp [repeatList, List.count_append, ih, Nat.succ_mul]

theorem count_invocations_same (t : EventType) (wrap : Func → Event)
    (hw : ∀ a b, wrap a = wrap b → a = b) (ctx : Context) (fs : List Func) (fc : Func) :
    (invocations t wrap ctx fs).count (.onEvent t (wrap fc) ctx) = fs.count fc := by
  induction fs with
  | nil => simp [invocations]
  | cons a l ih =>
    simp only [invocations, List.count_cons, ih, beq_iff_eq, reduceCtorEq, if_false,
      Nat.add_zero, Effect.onEvent.injEq, true_and, and_true]
    by_cases h : a = fc
    · simp [h]
    · have : ¬ wrap a = wrap fc := fun e => h (hw _ _ e)
      simp [h, this]

theorem BootUp_registry_cases {σ K D : Type} (sem : Sem σ) (env : Env) (app : Bootstrap K D)
    (w : World σ) :
    (app.BootUp sem env w).world.registry = (bootWorld app w).registry ∨
      (app.BootUp sem env w).world.registry = (startWorld sem env app w).registry ∨
      (app.BootUp sem env w).world.registry = (shutWorld sem env app w).registry := by
  unfold Bootstrap.BootUp
  simp only []
  repeat' split
  all_goals simp [bootWorld, startWorld, shutWorld]

theorem dispatch_returned {σ : Type} (sem : Sem σ) (ctx : Context) (t : EventType)
    (wrap : Func → Event) (hw : ∀ fc c, (wrap fc).OnEvent c = (fc, c)) (fs : List Func) (s : σ)
    (h : (dispatch sem ctx t (fs.map (fun fc => some (wrap fc))) s).outcome = .returned) :
    (dispatch sem ctx t (fs.map (fun fc => some (wrap fc))) s).store = runAll sem ctx fs s ∧
      (dispatch sem ctx t (fs.map (fun fc => some (wrap fc))) s).trace =
        invocations t wrap ctx fs := by
  induction fs generalizing s with
  | nil => simp [dispatch, runAll, invocations]
  | cons a l ih =>
    simp only [List.map_cons, dispatch, hw] at h ⊢
    rcases hs : sem a ctx s with ⟨s1, _ | msg⟩
    · rw [hs] at h
      simp only at h ⊢
      obtain ⟨i1, i2⟩ := ih s1 h
      simp only [runAll, List.foldl_cons, hs, invocations]
      simp only [runAll] at i1
      exact ⟨i1, by rw [i2]⟩
    · rw [hs] at h
      simp at h

theorem dispatch_panic_mem {σ : Type} (sem : Sem σ) (ctx : Context) (t : EventType)
    (es : List (Option Event)) (s : σ) (m : String)
    (h : (dispatch sem ctx t es s).outcome = .panic m) :
    Effect.panicked t m ∈ (dispatch sem ctx t es s).trace := by
  induction es generalizing s with
  | nil => simp [dispatch] at h
  | cons a l ih =>
    cases a with
    | none =>
      simp only [dispatch, Outcome.panic.injEq] at h ⊢
      simp [h]
    | some ev =>
      simp only [dispatch] at h ⊢
      rcases hs : sem (ev.OnEvent ctx).1 (ev.OnEvent ctx).2 s with ⟨s1, _ | msg⟩
      · rw [hs] at h
        simp only [List.mem_cons, reduceCtorEq, false_or] at h ⊢
        exact ih s1 h
      · rw [hs] at h
        simp only [Outcome.panic.injEq] at h
        simp [h]

theorem Publish_panic_mem {σ : Type} (sem : Sem σ) (ctx : Context) (t : EventType)
    (w : World σ) (m : String) (h : (Publish sem ctx t w).outcome = .panic m) :
    Effect.panicked t m ∈ (Publish sem ctx t w).trace := by
  simp only [Publish, List.mem_cons, reduceCtorEq, false_or] at h ⊢
  exact dispatch_panic_mem sem ctx t _ _ m h

theorem dispatch_count_le {σ : Type} (sem : Sem σ) (ctx : Context) (t : EventType)
    (wrap : Func → Event) (hw : ∀ fc c, (wrap fc).OnEvent c = (fc, c))
    (hinj : ∀ a b, wrap a = wrap b → a = b) (fs : List Func) (s : σ) (fc : Func) :
    (dispatch sem ctx t (fs.map (fun fc => some (wrap fc))) s).trace.count
      (.onEvent t (wrap fc) ctx) ≤ fs.count fc := by
  induction fs generalizing s with
  | nil => simp [dispatch]
  | cons a l ih =>
    simp only [List.map_cons, dispatch, hw]
    rcases hs : sem a ctx s with ⟨s1, _ | msg⟩
    · simp only
      have := ih s1
      rw [List.count_cons, List.count_cons, List.count_cons, List.count_cons]
      by_cases h : a = fc
      · simp [h]
        omega
      · have hne : ¬ wrap a = wrap fc := fun e => h (hinj _ _ e)
        simp [h, hne]
        omega
    · simp only
      rw [List.count_cons, List.count_cons, List.count_cons, List.count_cons]
      by_cases h : a = fc
      · simp [h]
      · have hne : ¬ wrap a = wrap fc := fun e => h (hinj _ _ e)
        simp [h, hne]

theorem Publish_count_other {σ : Type} (sem : Sem σ) (ctx : Context) (t t' : EventType)
    (w : World σ) (ev : Event) (c : Context) (h : t ≠ t') :
    (Publish sem ctx t w).trace.count (.onEvent t' ev c) = 0 := by
  rw [List.count_eq_zero]
  intro he
  rcases Publish_mem sem ctx t w _ he with h1 | ⟨e, h1⟩ | ⟨fc, c1, h1⟩ | ⟨fc, h1⟩ | ⟨m, h1, _⟩
  · cases h1
  · cases h1
    exact h rfl
  · cases h1
  · cases h1
  · cases h1

theorem BootUp_world_boot_panic {σ K D : Type} (sem : Sem σ) (env : Env)
    (app : Bootstrap K D) (w : World σ) (m : String)
    (h1 : (bootPublish sem env app w).outcome = .panic m) :
    (app.BootUp sem env w).world.registry = (bootWorld app w).registry := by
  simp only [bootPublish, bootWorld] at h1
  simp [Bootstrap.BootUp, h1, bootWorld]

theorem BootUp_world_start_panic {σ K D : Type} (sem : Sem σ) (env : Env)
    (app : Bootstrap K D) (w : World σ) (m : String)
    (h1 : (bootPublish sem env app w).outcome = .returned)
    (h4 : (startPublish sem env app w).outcome = .panic m) :
    (app.BootUp sem env w).world.registry = (startWorld sem env app w).registry := by
  simp only [bootPublish, bootWorld, startPublish, startWorld] at h1 h4
  simp [Bootstrap.BootUp, h1, h4, bootPublish, bootWorld, startWorld]

theorem BootUp_no_panic {σ K D : Type} (sem : Sem σ) (env : Env) (app : Bootstrap K D)
    (w : World σ) (hnp : (app.BootUp sem env w).trace.any Effect.isPanic = false)
    (hsig : env.signal = true) :
    (bootPublish sem env app w).outcome = .returned ∧
      (startPublish sem env app w).outcome = .returned ∧
      (shutPublish sem env app w).outcome = .returned := by
  rw [List.any_eq_false] at hnp
  have key : ∀ t m, Effect.panicked t m ∉ (app.BootUp sem env w).trace := by
    intro t m hm
    exact hnp _ hm rfl
  rcases BootUp_cases sem env app w with ⟨m, h1, ho, htr⟩ | ⟨h1, ⟨m, h4, ho, htr⟩ |
    ⟨h4, ⟨hs, ho, htr⟩ | ⟨hs, ⟨m, h7, ho, htr⟩ | ⟨h7, ⟨err, he, ho, htr⟩ | ⟨he, ho, htr⟩⟩⟩⟩⟩
  · exfalso
    apply key BootupEvent m
    rw [htr]
    have := Publish_panic_mem sem env.ctx BootupEvent (bootWorld app w) m h1
    simp only [bootPublish, List.mem_append]
    exact Or.inl (Or.inr this)
  · exfalso
    apply key StartupEvent m
    rw [htr]
    have := Publish_panic_mem sem env.ctx StartupEvent (startWorld sem env app w) m h4
    simp only [startPublish, List.mem_append]
    exact Or.inl (Or.inr this)
  · rw [hsig] at hs
    cases hs
  · exfalso
    apply key ShutdownEvent m
    rw [htr]
    have := Publish_panic_mem sem env.ctx ShutdownEvent (shutWorld sem env app w) m h7
    simp only [shutPublish, List.mem_append]
    exact Or.inl (Or.inr this)
  · exact ⟨h1, h4, h7⟩
  · exact ⟨h1, h4, h7⟩

/-- A run in which the three publishes return and the signal arrives, on a registry
that holds wrapped closures. -/
theorem BootUp_done {σ K D : Type} (sem : Sem σ) (env : Env) (app : Bootstrap K D)
    (w : World σ) (gs hs ks : List Func)
    (hb : w.registry BootupEvent = gs.map (fun fc => some (.BootEventHandler fc)))
    (hst : w.registry StartupEvent = hs.map (fun fc => some (.StartEventHandler fc)))
    (hsh : w.registry ShutdownEvent = ks.map (fun fc => some (.ShutDownEventHandler fc)))
    (h1 : (bootPublish sem env app w).outcome = .returned)
    (h4 : (startPublish sem env app w).outcome = .returned)
    (h7 : (shutPublish sem env app w).outcome = .returned)
    (hsig : env.signal = true) :
    (app.BootUp sem env w).trace.filter Effect.isHandlerEvent =
        invocations BootupEvent .BootEventHandler env.ctx (gs ++ app.bootOpts.elems) ++
        invocations StartupEvent .StartEventHandler env.ctx (hs ++ app.startOpts.elems) ++
        invocations ShutdownEvent .ShutDownEventHandler env.ctx (ks ++ app.shutDownOpts.elems) ∧
      (app.BootUp sem env w).world.store =
        runAll sem env.ctx ((gs ++ app.bootOpts.elems) ++ (hs ++ app.startOpts.elems) ++
          (ks ++ app.shutDownOpts.elems)) w.store := by
  obtain ⟨hbs, hbd, hsd⟩ := events_ne
  have r1 : (bootWorld app w).registry BootupEvent =
      (gs ++ app.bootOpts.elems).map (fun fc => some (.BootEventHandler fc)) := by
    rw [bootWorld_registry, hb]; simp
  have r4 : (startWorld sem env app w).registry StartupEvent =
      (hs ++ app.startOpts.elems).map (fun fc => some (.StartEventHandler fc)) := by
    rw [startWorld_registry, hst]; simp [Ne.symm hbs]
  have r7 : (shutWorld sem env app w).registry ShutdownEvent =
      (ks ++ app.shutDownOpts.elems).map (fun fc => some (.ShutDownEventHandler fc)) := by
    rw [shutWorld_registry, hsh]; simp [Ne.symm hbd, Ne.symm hsd]
  have h1' := h1
  have h4' := h4
  have h7' := h7
  simp only [bootPublish, Publish, r1] at h1'
  simp only [startPublish, Publish, r4] at h4'
  simp only [shutPublish, Publish, r7] at h7'
  have d1 := dispatch_returned sem env.ctx BootupEvent .BootEventHandler
    (fun _ _ => rfl) (gs ++ app.bootOpts.elems) _ h1'
  have d4 := dispatch_returned sem env.ctx StartupEvent .StartEventHandler
    (fun _ _ => rfl) (hs ++ app.startOpts.elems) _ h4'
  have d7 := dispatch_returned sem env.ctx ShutdownEvent .ShutDownEventHandler
    (fun _ _ => rfl) (ks ++ app.shutDownOpts.elems) _ h7'
  have p1 : (bootPublish sem env app w).store = runAll sem env.ctx (gs ++ app.bootOpts.elems)
        w.store ∧
      (bootPublish sem env app w).trace = .publish BootupEvent ::
        invocations BootupEvent .BootEventHandler env.ctx (gs ++ app.bootOpts.elems) := by
    simp only [bootPublish, Publish, r1]
    exact ⟨d1.1, congrArg (List.cons _) d1.2⟩
  have p4 : (startPublish sem env app w).store = runAll sem env.ctx (hs ++ app.startOpts.elems)
        (bootPublish sem env app w).store ∧
      (startPublish sem env app w).trace = .publish StartupEvent ::
        invocations StartupEvent .StartEventHandler env.ctx (hs ++ app.startOpts.elems) := by
    simp only [startPublish, Publish, r4]
    exact ⟨d4.1, congrArg (List.cons _) d4.2⟩
  have p7 : (shutPublish sem env app w).store = runAll sem env.ctx
        (ks ++ app.shutDownOpts.elems) (startPublish sem env app w).store ∧
      (shutPublish sem env app w).trace = .publish ShutdownEvent ::
        invocations ShutdownEvent .ShutDownEventHandler env.ctx
          (ks ++ app.shutDownOpts.elems) := by
    simp only [shutPublish, Publish, r7]
    exact ⟨d7.1, congrArg (List.cons _) d7.2⟩
  obtain ⟨_, ws⟩ := BootUp_world sem env app w h1 h4 hsig h7
  refine ⟨?_, ?_⟩
  · rcases BootUp_cases sem env app w with ⟨m, g1, ho, htr⟩ | ⟨g1, ⟨m, g4, ho, htr⟩ |
      ⟨g4, ⟨hs', ho, htr⟩ | ⟨hs', ⟨m, g7, ho, htr⟩ | ⟨g7, ⟨err, he, ho, htr⟩ | ⟨he, ho, htr⟩⟩⟩⟩⟩
    · rw [h1] at g1; cases g1
    · rw [h4] at g4; cases g4
    · rw [hsig] at hs'; cases hs'
    · rw [h7] at g7; cases g7
    · rw [htr]
      simp [drainingTrace, servingTrace, installedTrace, p1.2, p4.2, p7.2,
        List.filter_append, filter_invocations, filter_engineUse, Effect.isHandlerEvent]
    · rw [htr]
      simp [drainingTrace, servingTrace, installedTrace, p1.2, p4.2, p7.2,
        List.filter_append, filter_invocations, filter_engineUse, Effect.isHandlerEvent]
  · rw [ws, p7.1, p4.1, p1.1]
    simp [runAll, List.foldl_append]

theorem count_engineUse (mws : List HandlerFunc) (t : EventType) (ev : Event) (c : Context) :
    (mws.map Effect.engineUse).count (.onEvent t ev c) = 0 := by
  rw [List.count_eq_zero]
  intro h
  simp at h

theorem bootPublish_trace_sub {σ K D : Type} (sem : Sem σ) (env : Env) (app : Bootstrap K D)
    (w : World σ) (e : Effect) (he : e ∈ (bootPublish sem env app w).trace) :
    e ∈ (app.BootUp sem env w).trace := by
  rcases BootUp_cases sem env app w with ⟨m, h1, ho, htr⟩ | ⟨h1, ⟨m, h4, ho, htr⟩ |
    ⟨h4, ⟨hs, ho, htr⟩ | ⟨hs, ⟨m, h7, ho, htr⟩ | ⟨h7, ⟨err, he', ho, htr⟩ | ⟨he', ho, htr⟩⟩⟩⟩⟩ <;>
    rw [htr] <;>
    simp only [drainingTrace, servingTrace, installedTrace, List.mem_append] <;>
    tauto

theorem BootUp_count_boot {σ K D : Type} (sem : Sem σ) (env : Env) (app : Bootstrap K D)
    (w : World σ) (ev : Event) (c : Context) :
    (app.BootUp sem env w).trace.count (.onEvent BootupEvent ev c) =
      (bootPublish sem env app w).trace.count (.onEvent BootupEvent ev c) := by
  obtain ⟨hbs, hbd, hsd⟩ := events_ne
  have z4 := Publish_count_other sem env.ctx StartupEvent BootupEvent (startWorld sem env app w)
    ev c (Ne.symm hbs)
  have z7 := Publish_count_other sem env.ctx ShutdownEvent BootupEvent (shutWorld sem env app w)
    ev c (Ne.symm hbd)
  have zm := count_engineUse app.middleWares.elems BootupEvent ev c
  rcases BootUp_cases sem env app w with ⟨m, h1, ho, htr⟩ | ⟨h1, ⟨m, h4, ho, htr⟩ |
    ⟨h4, ⟨hs, ho, htr⟩ | ⟨hs, ⟨m, h7, ho, htr⟩ | ⟨h7, ⟨err, he', ho, htr⟩ | ⟨he', ho, htr⟩⟩⟩⟩⟩ <;>
    rw [htr] <;>
    simp only [drainingTrace, servingTrace, installedTrace, startPublish, shutPublish,
      List.count_append, z4, z7, zm] <;>
    simp [List.count_cons]

theorem BootUp_count_start_le {σ K D : Type} (sem : Sem σ) (env : Env) (app : Bootstrap K D)
    (w : World σ) (ev : Event) (c : Context) :
    (app.BootUp sem env w).trace.count (.onEvent StartupEvent ev c) ≤
      (startPublish sem env app w).trace.count (.onEvent StartupEvent ev c) := by
  obtain ⟨hbs, hbd, hsd⟩ := events_ne
  have z1 := Publish_count_other sem env.ctx BootupEvent StartupEvent (bootWorld app w)
    ev c hbs
  have z7 := Publish_count_other sem env.ctx ShutdownEvent StartupEvent (shutWorld sem env app w)
    ev c (Ne.symm hsd)
  have zm := count_engineUse app.middleWares.elems StartupEvent ev c
  rcases BootUp_cases sem env app w with ⟨m, h1, ho, htr⟩ | ⟨h1, ⟨m, h4, ho, htr⟩ |
    ⟨h4, ⟨hs, ho, htr⟩ | ⟨hs, ⟨m, h7, ho, htr⟩ | ⟨h7, ⟨err, he', ho, htr⟩ | ⟨he', ho, htr⟩⟩⟩⟩⟩ <;>
    rw [htr] <;>
    simp only [drainingTrace, servingTrace, installedTrace, bootPublish, shutPublish,
      List.count_append, z1, z7, zm] <;>
    simp [List.count_cons]

theorem BootUp_count_shut_le {σ K D : Type} (sem : Sem σ) (env : Env) (app : Bootstrap K D)
    (w : World σ) (ev : Event) (c : Context) :
    (app.BootUp sem env w).trace.count (.onEvent ShutdownEvent ev c) ≤
      (shutPublish sem env app w).trace.count (.onEvent ShutdownEvent ev c) := by
  obtain ⟨hbs, hbd, hsd⟩ := events_ne
  have z1 := Publish_count_other sem env.ctx BootupEvent ShutdownEvent (bootWorld app w)
    ev c hbd
  have z4 := Publish_count_other sem env.ctx StartupEvent ShutdownEvent
    (startWorld sem env app w) ev c hsd
  have zm := count_engineUse app.middleWares.elems ShutdownEvent ev c
  rcases BootUp_cases sem env app w with ⟨m, h1, ho, htr⟩ | ⟨h1, ⟨m, h4, ho, htr⟩ |
    ⟨h4, ⟨hs, ho, htr⟩ | ⟨hs, ⟨m, h7, ho, htr⟩ | ⟨h7, ⟨err, he', ho, htr⟩ | ⟨he', ho, htr⟩⟩⟩⟩⟩ <;>
    rw [htr] <;>
    simp only [drainingTrace, servingTrace, installedTrace, bootPublish, startPublish,
      List.count_append, z1, z4, zm] <;>
    simp [List.count_cons]

theorem admitsNext_cases {σ K D : Type} (sem : Sem σ) (env : Env) (app : Bootstrap K D)
    (w : World σ) (h : (app.BootUp sem env w).admitsNext = true) :
    (∃ m, (bootPublish sem env app w).outcome = .panic m) ∨
      ((bootPublish sem env app w).outcome = .returned ∧
        ∃ m, (startPublish sem env app w).outcome = .panic m) := by
  rcases BootUp_cases sem env app w with ⟨m, h1, ho, htr⟩ | ⟨h1, ⟨m, h4, ho, htr⟩ |
    ⟨h4, ⟨hs, ho, htr⟩ | ⟨hs, ⟨m, h7, ho, htr⟩ | ⟨h7, ⟨err, he', ho, htr⟩ | ⟨he', ho, htr⟩⟩⟩⟩⟩
  · exact Or.inl ⟨m, h1⟩
  · exact Or.inr ⟨h1, m, h4⟩
  · simp [Run.admitsNext, ho] at h
  · simp [Run.admitsNext, ho, htr, servingTrace, List.any_append, Effect.isListen] at h
  · simp [Run.admitsNext, ho] at h
  · simp [Run.admitsNext, ho] at h

theorem Publish_count_le {σ : Type} (sem : Sem σ) (ctx : Context) (t : EventType)
    (wrap : Func → Event) (hw : ∀ fc c, (wrap fc).OnEvent c = (fc, c))
    (hinj : ∀ a b, wrap a = wrap b → a = b) (fs : List Func) (w : World σ)
    (hr : w.registry t = fs.map (fun fc => some (wrap fc))) (fc : Func) :
    (Publish sem ctx t w).trace.count (.onEvent t (wrap fc) ctx) ≤ fs.count fc := by
  have := dispatch_count_le sem ctx t wrap hw hinj fs w.store fc
  simpa [Publish, hr, List.count_cons] using this

theorem Publish_count_eq {σ : Type} (sem : Sem σ) (ctx : Context) (t : EventType)
    (wrap : Func → Event) (hw : ∀ fc c, (wrap fc).OnEvent c = (fc, c))
    (hinj : ∀ a b, wrap a = wrap b → a = b) (fs : List Func) (w : World σ)
    (hr : w.registry t = fs.map (fun fc => some (wrap fc)))
    (ho : (Publish sem ctx t w).outcome = .returned) (fc : Func) :
    (Publish sem ctx t w).trace.count (.onEvent t (wrap fc) ctx) = fs.count fc := by
  have ho' : (dispatch sem ctx t (fs.map (fun fc => some (wrap fc))) w.store).outcome =
      .returned := by
    simpa [Publish, hr] using ho
  have := (dispatch_returned sem ctx t wrap hw fs w.store ho').2
  simp [Publish, hr, this, List.count_cons, count_invocations_same t wrap hinj]

theorem afterRuns_inv {σ K D : Type} (sem : Sem σ) (env : Env) (app : Bootstrap K D)
    (w : World σ) (n : Nat) (a : Bootstrap K D) (w' : World σ)
    (h : afterRuns sem env app w n = some (a, w')) :
    a.bootOpts = app.bootOpts ∧ a.startOpts = app.startOpts ∧
      a.shutDownOpts = app.shutDownOpts ∧
      w'.registry BootupEvent = w.registry BootupEvent ++
        (repeatList n app.bootOpts.elems).map (fun fc => some (.BootEventHandler fc)) ∧
      (∃ j, j ≤ n ∧ w'.registry StartupEvent = w.registry StartupEvent ++
        (repeatList j app.startOpts.elems).map (fun fc => some (.StartEventHandler fc))) ∧
      w'.registry ShutdownEvent = w.registry ShutdownEvent := by
  obtain ⟨hbs, hbd, hsd⟩ := events_ne
  induction n generalizing a w' with
  | zero =>
    simp only [afterRuns, Option.some.injEq, Prod.mk.injEq] at h
    obtain ⟨rfl, rfl⟩ := h
    exact ⟨rfl, rfl, rfl, by simp [repeatList], ⟨0, Nat.le_refl 0, by simp [repeatList]⟩, rfl⟩
  | succ k ih =>
    simp only [afterRuns] at h
    rcases hp : afterRuns sem env app w k with _ | ⟨a0, w0⟩
    · rw [hp] at h
      simp at h
    · rw [hp] at h
      simp only at h
      by_cases hadm : (a0.BootUp sem env w0).admitsNext = true
      · rw [if_pos hadm] at h
        simp only [Option.some.injEq, Prod.mk.injEq] at h
        obtain ⟨rfl, rfl⟩ := h
        obtain ⟨a1, a2, a3, b1, ⟨j, hj, b2⟩, b3⟩ := ih a0 w0 hp
        have happ := BootUp_app sem env a0 w0
        refine ⟨happ.1.trans a1, happ.2.1.trans a2, happ.2.2.1.trans a3, ?_⟩
        rcases admitsNext_cases sem env a0 w0 hadm with ⟨m, h1⟩ | ⟨h1, m, h4⟩
        · have hr := BootUp_world_boot_panic sem env a0 w0 m h1
          refine ⟨?_, ⟨j, Nat.le_succ_of_le hj, ?_⟩, ?_⟩
          · rw [hr, bootWorld_registry, b1, a1]
            simp [repeatList]
          · rw [hr, bootWorld_registry, b2]
            simp [Ne.symm hbs]
          · rw [hr, bootWorld_registry, b3]
            simp [Ne.symm hbd]
        · have hr := BootUp_world_start_panic sem env a0 w0 m h1 h4
          refine ⟨?_, ⟨j + 1, Nat.succ_le_succ hj, ?_⟩, ?_⟩
          · rw [hr, startWorld_registry, b1, a1]
            simp [repeatList]
          · rw [hr, startWorld_registry, b2, a2]
            simp [repeatList, Ne.symm hbs]
          · rw [hr, startWorld_registry, b3]
            simp [Ne.symm hbd, Ne.symm hsd]
      · rw [if_neg hadm] at h
        simp at h

theorem nthRun_eq_some {σ K D : Type} (sem : Sem σ) (env : Env) (app : Bootstrap K D)
    (w : World σ) (n : Nat) (r : Run σ K D) (h : nthRun sem env app w n = some r) :
    ∃ a w', afterRuns sem env app w n = some (a, w') ∧ r = a.BootUp sem env w' := by
  simp only [nthRun] at h
  rcases hp : afterRuns sem env app w n with _ | ⟨a, w'⟩
  · rw [hp] at h
    simp at h
  · rw [hp] at h
    simp only [Option.some.injEq] at h
    exact ⟨a, w', rfl, h.symm⟩

/-! ## The claims -/

/-- C1 fails: on an empty bus, a run whose boot handler panics never calls the
startup handler, and a run to which no signal is delivered never calls the
shutdown handler; in both the closures executed are not `bootOpts ++ startOpts ++
shutDownOpts`. -/
theorem BootUp_run_skips_handlers :
    sampleWorld.registry = emptyRegistry ∧
      (sampleBootFail.BootUp sampleSem sampleEnv sampleWorld).trace.filter
          Effect.isHandlerEvent ≠
        invocations BootupEvent .BootEventHandler sampleEnv.ctx sampleBootFail.bootOpts.elems ++
        invocations StartupEvent .StartEventHandler sampleEnv.ctx
          sampleBootFail.startOpts.elems ++
        invocations ShutdownEvent .ShutDownEventHandler sampleEnv.ctx
          sampleBootFail.shutDownOpts.elems ∧
      Effect.call (.closure 2) 7 ∉
        (sampleBootFail.BootUp sampleSem sampleEnv sampleWorld).trace ∧
      (sampleApp.BootUp sampleSem sampleEnvNoSignal sampleWorld).trace.filter
          Effect.isHandlerEvent ≠
        invocations BootupEvent .BootEventHandler sampleEnvNoSignal.ctx
          sampleApp.bootOpts.elems ++
        invocations StartupEvent .StartEventHandler sampleEnvNoSignal.ctx
          sampleApp.startOpts.elems ++
        invocations ShutdownEvent .ShutDownEventHandler sampleEnvNoSignal.ctx
          sampleApp.shutDownOpts.elems ∧
      Effect.call (.closure 3) 7 ∉
        (sampleApp.BootUp sampleSem sampleEnvNoSignal sampleWorld).trace :=
  ⟨rfl, by decide, by decide, by decide, by decide⟩

/-- C1, amended: on an empty event bus, a run of `BootUp` in which no handler panics
and the shutdown signal arrives, with handlers that act on their store only,
executes the closures `bootOpts ++ startOpts ++ shutDownOpts` in that order, each
once: the handler events of the run are, closure by closure, "wrapper entered with
the bus context, closure called with that same context, closure returned", first
for the boot handlers, then the startup handlers, then the shutdown handlers, so a
closure begins only after all the closures before it have returned.  The wrappers
are the ones `parseEvent` builds for the phase, each wrapper calls the closure it
was built from with the context it receives, and the store ends as these calls
leave it. -/
theorem BootUp_complete_run_invokes_in_order {σ K D : Type} (sem : Sem σ) (env : Env)
    (app : Bootstrap K D) (w : World σ) (hreg : ∀ t, w.registry t = [])
    (hnp : (app.BootUp sem env w).trace.any Effect.isPanic = false)
    (hsig : env.signal = true) :
    (app.BootUp sem env w).trace.filter Effect.isHandlerEvent =
        invocations BootupEvent .BootEventHandler env.ctx app.bootOpts.elems ++
        invocations StartupEvent .StartEventHandler env.ctx app.startOpts.elems ++
        invocations ShutdownEvent .ShutDownEventHandler env.ctx app.shutDownOpts.elems ∧
      (app.BootUp sem env w).world.store =
        runAll sem env.ctx
          (app.bootOpts.elems ++ app.startOpts.elems ++ app.shutDownOpts.elems) w.store ∧
      (∀ fc, parseEvent fc BootupEvent = some (.BootEventHandler fc) ∧
        parseEvent fc StartupEvent = some (.StartEventHandler fc) ∧
        parseEvent fc ShutdownEvent = some (.ShutDownEventHandler fc)) ∧
      (∀ fc ctx, (Event.BootEventHandler fc).OnEvent ctx = (fc, ctx) ∧
        (Event.StartEventHandler fc).OnEvent ctx = (fc, ctx) ∧
        (Event.ShutDownEventHandler fc).OnEvent ctx = (fc, ctx)) := by
  obtain ⟨h1, h4, h7⟩ := BootUp_no_panic sem env app w hnp hsig
  have h := BootUp_done sem env app w [] [] [] (by simp [hreg]) (by simp [hreg])
    (by simp [hreg]) h1 h4 h7 hsig
  refine ⟨by simpa using h.1, by simpa using h.2, ?_, ?_⟩
  · intro fc
    exact ⟨parseEvent_bootup fc, parseEvent_startup fc, parseEvent_shutdown fc⟩
  · intro fc ctx
    exact ⟨rfl, rfl, rfl⟩

/-- C1 amended, at a `Bootstrap` whose startup handler panics unless the boot handler
has run before it. -/
theorem BootUp_complete_run_invokes_in_order_witness :
    (∀ t, sampleWorld.registry t = []) ∧
      (sampleApp.BootUp probeSem sampleEnv sampleWorld).trace.any Effect.isPanic = false ∧
      sampleEnv.signal = true ∧
      (sampleApp.BootUp probeSem sampleEnv sampleWorld).trace.filter Effect.isHandlerEvent =
        [.onEvent BootupEvent (.BootEventHandler (.closure 1)) 7, .call (.closure 1) 7,
         .returned (.closure 1),
         .onEvent StartupEvent (.StartEventHandler (.closure 2)) 7, .call (.closure 2) 7,
         .returned (.closure 2),
         .onEvent ShutdownEvent (.ShutDownEventHandler (.closure 3)) 7, .call (.closure 3) 7,
         .returned (.closure 3)] ∧
      (sampleApp.BootUp probeSem sampleEnv sampleWorld).world.store = 42 :=
  ⟨fun _ => rfl, by decide, rfl,
    (BootUp_complete_run_invokes_in_order probeSem sampleEnv sampleApp sampleWorld
      (fun _ => rfl) (by decide) rfl).1,
    (BootUp_complete_run_invokes_in_order probeSem sampleEnv sampleApp sampleWorld
      (fun _ => rfl) (by decide) rfl).2.1⟩

/-- C2: if a handler panics while `BootUp` publishes the boot phase or the startup
phase, the run unwinds with that panic before the serve goroutine is started:
`server.ListenAndServe` is never called, no shutdown handler is invoked, and when
the panic is in the boot phase no startup handler is invoked either. -/
theorem BootUp_panic_before_listen {σ K D : Type} (sem : Sem σ) (env : Env)
    (app : Bootstrap K D) (w : World σ) (t : EventType) (msg : String)
    (ht : t = BootupEvent ∨ t = StartupEvent)
    (hp : Effect.panicked t msg ∈ (app.BootUp sem env w).trace) :
    (app.BootUp sem env w).outcome = .panic msg ∧
      (app.BootUp sem env w).trace.any Effect.isListen = false ∧
      (app.BootUp sem env w).trace.any (Effect.isInvocation ShutdownEvent) = false ∧
      (t = BootupEvent →
        (app.BootUp sem env w).trace.any (Effect.isInvocation StartupEvent) = false) := by
  obtain ⟨hbs, hbd, hsd⟩ := events_ne
  have hl1 := Publish_any_isListen sem env.ctx BootupEvent (bootWorld app w)
  have hl4 := Publish_any_isListen sem env.ctx StartupEvent (startWorld sem env app w)
  have hi1 := Publish_any_isInvocation sem env.ctx BootupEvent ShutdownEvent (bootWorld app w) hbd
  have hi1' := Publish_any_isInvocation sem env.ctx BootupEvent StartupEvent (bootWorld app w) hbs
  have hi4 := Publish_any_isInvocation sem env.ctx StartupEvent ShutdownEvent
    (startWorld sem env app w) hsd
  have hq1 := Publish_panicked sem env.ctx BootupEvent t (bootWorld app w) msg
  have hq4 := Publish_panicked sem env.ctx StartupEvent t (startWorld sem env app w) msg
  have hq7 := Publish_panicked sem env.ctx ShutdownEvent t (shutWorld sem env app w) msg
  simp only [bootPublish, startPublish, shutPublish] at *
  rcases BootUp_cases sem env app w with ⟨m, h1, ho, htr⟩ | ⟨h1, ⟨m, h4, ho, htr⟩ |
    ⟨h4, ⟨hs, ho, htr⟩ | ⟨hs, ⟨m, h7, ho, htr⟩ | ⟨h7, ⟨err, he, ho, htr⟩ | ⟨he, ho, htr⟩⟩⟩⟩⟩
  · simp only [bootPublish] at h1 htr
    rw [htr] at hp ⊢
    simp only [List.mem_append, List.mem_singleton, List.mem_cons, List.not_mem_nil,
      or_false, false_or, reduceCtorEq] at hp
    obtain ⟨_, h⟩ := hq1 hp
    rw [h1] at h
    refine ⟨by rw [ho, h], ?_, ?_, ?_⟩ <;>
      simp [List.any_append, hl1, hi1, hi1', Effect.isListen, Effect.isInvocation]
  · simp only [bootPublish, startPublish, installedTrace] at h1 h4 htr
    rw [htr] at hp ⊢
    simp only [List.mem_append, List.mem_singleton, List.mem_cons, List.not_mem_nil,
      or_false, false_or, reduceCtorEq, List.mem_map, and_false, exists_false] at hp
    rcases hp with hp | hp
    · have := (hq1 hp).2
      rw [h1] at this
      cases this
    · obtain ⟨htS, h⟩ := hq4 hp
      rw [h4] at h
      refine ⟨by rw [ho, h], ?_, ?_, ?_⟩
      · simp [List.any_append, hl1, hl4, Effect.isListen]
      · simp [List.any_append, hi1, hi4, Effect.isInvocation]
      · intro hb
        exact absurd (htS.symm.trans hb) (Ne.symm hbs)
  all_goals
    exfalso
    simp only [bootPublish, startPublish, shutPublish, installedTrace, servingTrace,
      drainingTrace] at *
    rw [htr] at hp
    simp only [List.mem_append, List.mem_singleton, List.mem_cons, List.not_mem_nil,
      or_false, false_or, reduceCtorEq, List.mem_map, and_false, exists_false] at hp
    have n1 : Effect.panicked t msg ∉
        (Publish sem env.ctx BootupEvent (bootWorld app w)).trace := by
      intro hp
      have := (hq1 hp).2
      rw [h1] at this
      cases this
    have n4 : Effect.panicked t msg ∉
        (Publish sem env.ctx StartupEvent (startWorld sem env app w)).trace := by
      intro hp
      have := (hq4 hp).2
      rw [h4] at this
      cases this
    have n7 : Effect.panicked t msg ∉
        (Publish sem env.ctx ShutdownEvent (shutWorld sem env app w)).trace := by
      intro hp
      have := (hq7 hp).1
      rcases ht with ht | ht
      · exact hbd (ht.symm.trans this)
      · exact hsd (ht.symm.trans this)
    simp [n1, n4, n7] at hp

/-- C2, at a `Bootstrap` whose boot handler panics. -/
theorem BootUp_panic_before_listen_witness :
    Effect.panicked BootupEvent "boom" ∈
        (sampleBootFail.BootUp sampleSem sampleEnv sampleWorld).trace ∧
      (sampleBootFail.BootUp sampleSem sampleEnv sampleWorld).outcome = .panic "boom" ∧
      (sampleBootFail.BootUp sampleSem sampleEnv sampleWorld).trace.any Effect.isListen = false ∧
      (sampleBootFail.BootUp sampleSem sampleEnv sampleWorld).trace.any
        (Effect.isInvocation ShutdownEvent) = false ∧
      (sampleBootFail.BootUp sampleSem sampleEnv sampleWorld).trace.any
        (Effect.isInvocation StartupEvent) = false :=
  have h := BootUp_panic_before_listen sampleSem sampleEnv sampleBootFail sampleWorld
    BootupEvent "boom" (Or.inl rfl) (by decide)
  ⟨by decide, h.1, h.2.1, h.2.2.1, h.2.2.2 rfl⟩

/-- C3 fails: the only shutdown handler panics after the listener was started;
`BootUp` unwinds with the panic and `server.Shutdown` is never called. -/
theorem BootUp_shutdown_panic_not_contained :
    Effect.panicked ShutdownEvent "boom" ∈
        (sampleShutFail.BootUp sampleSem sampleEnv sampleWorld).trace ∧
      (sampleShutFail.BootUp sampleSem sampleEnv sampleWorld).trace.any Effect.isListen = true ∧
      Effect.serverShutdown ∉ (sampleShutFail.BootUp sampleSem sampleEnv sampleWorld).trace ∧
      (sampleShutFail.BootUp sampleSem sampleEnv sampleWorld).outcome = .panic "boom" := by
  decide

/-- C3, amended: if a shutdown handler panics during the shutdown publish of
`BootUp`, the panic propagates out of `BootUp`: the run ends with that panic after
the deferred `stop()`, the listener had been started, and `server.Shutdown` is not
called. -/
theorem BootUp_shutdown_panic_propagates {σ K D : Type} (sem : Sem σ) (env : Env)
    (app : Bootstrap K D) (w : World σ) (msg : String)
    (hp : Effect.panicked ShutdownEvent msg ∈ (app.BootUp sem env w).trace) :
    (app.BootUp sem env w).outcome = .panic msg ∧
      (app.BootUp sem env w).trace.any Effect.isListen = true ∧
      Effect.serverShutdown ∉ (app.BootUp sem env w).trace ∧
      (app.BootUp sem env w).trace.getLast? = some .stop := by
  obtain ⟨hbs, hbd, hsd⟩ := events_ne
  have hq1 := Publish_panicked sem env.ctx BootupEvent ShutdownEvent (bootWorld app w) msg
  have hq4 := Publish_panicked sem env.ctx StartupEvent ShutdownEvent
    (startWorld sem env app w) msg
  have hq7 := Publish_panicked sem env.ctx ShutdownEvent ShutdownEvent
    (shutWorld sem env app w) msg
  have hd1 := Publish_any_shutdown sem env.ctx BootupEvent (bootWorld app w)
  have hd4 := Publish_any_shutdown sem env.ctx StartupEvent (startWorld sem env app w)
  have hd7 := Publish_any_shutdown sem env.ctx ShutdownEvent (shutWorld sem env app w)
  have n1 : Effect.panicked ShutdownEvent msg ∉
      (Publish sem env.ctx BootupEvent (bootWorld app w)).trace :=
    fun h => hbd (hq1 h).1.symm
  have n4 : Effect.panicked ShutdownEvent msg ∉
      (Publish sem env.ctx StartupEvent (startWorld sem env app w)).trace :=
    fun h => hsd (hq4 h).1.symm
  rcases BootUp_cases sem env app w with ⟨m, h1, ho, htr⟩ | ⟨h1, ⟨m, h4, ho, htr⟩ |
    ⟨h4, ⟨hs, ho, htr⟩ | ⟨hs, ⟨m, h7, ho, htr⟩ | ⟨h7, ⟨err, he, ho, htr⟩ | ⟨he, ho, htr⟩⟩⟩⟩⟩
  · exfalso
    simp only [bootPublish] at htr
    rw [htr] at hp
    simp [n1] at hp
  · exfalso
    simp only [bootPublish, startPublish, installedTrace] at htr
    rw [htr] at hp
    simp [n1, n4] at hp
  · exfalso
    simp only [bootPublish, startPublish, installedTrace, servingTrace] at htr
    rw [htr] at hp
    simp [n1, n4] at hp
  · simp only [bootPublish, startPublish, shutPublish, installedTrace, servingTrace] at *
    rw [htr] at hp ⊢
    have hp7 : Effect.panicked ShutdownEvent msg ∈
        (Publish sem env.ctx ShutdownEvent (shutWorld sem env app w)).trace := by
      simpa [n1, n4] using hp
    have hm := (hq7 hp7).2
    rw [h7] at hm
    refine ⟨by rw [ho, hm], ?_, ?_, ?_⟩
    · simp [List.any_append, Effect.isListen]
    · simp [hd1, hd4, hd7]
    · rw [List.getLast?_append]
      rfl
  · exfalso
    simp only [bootPublish, startPublish, shutPublish, installedTrace, servingTrace,
      drainingTrace] at *
    rw [htr] at hp
    have n7 : Effect.panicked ShutdownEvent msg ∉
        (Publish sem env.ctx ShutdownEvent (shutWorld sem env app w)).trace := by
      intro h
      have := (hq7 h).2
      rw [h7] at this
      cases this
    simp [n1, n4, n7] at hp
  · exfalso
    simp only [bootPublish, startPublish, shutPublish, installedTrace, servingTrace,
      drainingTrace] at *
    rw [htr] at hp
    have n7 : Effect.panicked ShutdownEvent msg ∉
        (Publish sem env.ctx ShutdownEvent (shutWorld sem env app w)).trace := by
      intro h
      have := (hq7 h).2
      rw [h7] at this
      cases this
    simp [n1, n4, n7] at hp

/-- C3 amended, at a `Bootstrap` whose shutdown handler panics. -/
theorem BootUp_shutdown_panic_propagates_witness :
    Effect.panicked ShutdownEvent "boom" ∈
        (sampleShutFail.BootUp sampleSem sampleEnv sampleWorld).trace ∧
      (sampleShutFail.BootUp sampleSem sampleEnv sampleWorld).outcome = .panic "boom" ∧
      Effect.serverShutdown ∉ (sampleShutFail.BootUp sampleSem sampleEnv sampleWorld).trace :=
  have h := BootUp_shutdown_panic_propagates sampleSem sampleEnv sampleShutFail sampleWorld
    "boom" (by decide)
  ⟨by decide, h.1, h.2.2.1⟩

/-- C5 fails: in a run with one handler for each phase, the startup phase is
published before the serve goroutine is started, not after. -/
theorem BootUp_listen_not_before_startup_publish :
    Effect.goListenAndServe ":8080" ∈
        (sampleApp.BootUp sampleSem sampleEnv sampleWorld).trace ∧
      Effect.publish StartupEvent ∈ (sampleApp.BootUp sampleSem sampleEnv sampleWorld).trace ∧
      ¬ ((sampleApp.BootUp sampleSem sampleEnv sampleWorld).trace.indexOf
            (.goListenAndServe ":8080") <
          (sampleApp.BootUp sampleSem sampleEnv sampleWorld).trace.indexOf
            (.publish StartupEvent)) := by
  decide

/-- C5, amended: in every run of `BootUp` that starts the listener, the order of
effects is: publish boot, install the middleware and the route table, publish
startup, then start `server.ListenAndServe` on a goroutine; the boot and startup
publishes consist of completed handler executions, and nothing before or after
that one call starts a listener. -/
theorem BootUp_listens_after_startup_publish {σ K D : Type} (sem : Sem σ) (env : Env)
    (app : Bootstrap K D) (w : World σ)
    (h : (app.BootUp sem env w).trace.any Effect.isListen = true) :
    ∃ b s rest, (app.BootUp sem env w).trace =
        .notifyContext :: .publish BootupEvent :: b ++
          (app.middleWares.elems.map Effect.engineUse ++ [.setupRouter]) ++
          .publish StartupEvent :: s ++
          [.logInfo "starting ------ ----- --- ", .goListenAndServe (serverAddr app)] ++ rest ∧
      b.all Effect.isHandlerEvent = true ∧ s.all Effect.isHandlerEvent = true ∧
      rest.any Effect.isListen = false := by
  have hl1 := Publish_any_isListen sem env.ctx BootupEvent (bootWorld app w)
  have hl4 := Publish_any_isListen sem env.ctx StartupEvent (startWorld sem env app w)
  have hl7 := Publish_any_isListen sem env.ctx ShutdownEvent (shutWorld sem env app w)
  have key : ∀ (t : EventType) (w' : World σ),
      (Publish sem env.ctx t w').outcome = .returned →
      ∃ l, (Publish sem env.ctx t w').trace = .publish t :: l ∧
        l.all Effect.isHandlerEvent = true := by
    intro t w' ho
    refine ⟨(dispatch sem env.ctx t (w'.registry t) w'.store).trace, rfl, ?_⟩
    rw [List.all_eq_true]
    intro e he
    rcases dispatch_mem sem env.ctx t _ _ e he with ⟨ev, rfl⟩ | ⟨fc, c, rfl⟩ | ⟨fc, rfl⟩ |
      ⟨msg, rfl, hm⟩
    · rfl
    · rfl
    · rfl
    · have ho' : (dispatch sem env.ctx t (w'.registry t) w'.store).outcome = .returned := ho
      rw [ho'] at hm
      cases hm
  rcases BootUp_cases sem env app w with ⟨m, h1, ho, htr⟩ | ⟨h1, ⟨m, h4, ho, htr⟩ |
    ⟨h4, ⟨hs, ho, htr⟩ | ⟨hs, ⟨m, h7, ho, htr⟩ | ⟨h7, ⟨err, he, ho, htr⟩ | ⟨he, ho, htr⟩⟩⟩⟩⟩
  · exfalso
    simp only [bootPublish] at htr
    rw [htr] at h
    simp [List.any_append, hl1, Effect.isListen] at h
  · exfalso
    simp only [bootPublish, startPublish, installedTrace] at htr
    rw [htr] at h
    simp [List.any_append, hl1, hl4, Effect.isListen] at h
  · obtain ⟨b, hb, hb'⟩ := key BootupEvent (bootWorld app w) h1
    obtain ⟨s, hs1, hs'⟩ := key StartupEvent (startWorld sem env app w) h4
    refine ⟨b, s, [], ?_, hb', hs', rfl⟩
    simp only [bootPublish, startPublish, installedTrace, servingTrace] at htr
    rw [htr, hb, hs1]
    simp
  · obtain ⟨b, hb, hb'⟩ := key BootupEvent (bootWorld app w) h1
    obtain ⟨s, hs1, hs'⟩ := key StartupEvent (startWorld sem env app w) h4
    refine ⟨b, s, [.ctxDone] ++ (shutPublish sem env app w).trace ++ [.stop], ?_, hb', hs', ?_⟩
    · simp only [bootPublish, startPublish, installedTrace, servingTrace] at htr
      rw [htr, hb, hs1]
      simp
    · simp only [shutPublish]
      simp [List.any_append, hl7, Effect.isListen]
  · obtain ⟨b, hb, hb'⟩ := key BootupEvent (bootWorld app w) h1
    obtain ⟨s, hs1, hs'⟩ := key StartupEvent (startWorld sem env app w) h4
    refine ⟨b, s, [.ctxDone] ++ (shutPublish sem env app w).trace ++
      [.stop, .logPrintln "application is shutting down", .serverShutdown] ++
      [.logFatal ("application forced to shutdown: " ++ err)], ?_, hb', hs', ?_⟩
    · simp only [bootPublish, startPublish, installedTrace, servingTrace, drainingTrace] at htr
      rw [htr, hb, hs1]
      simp
    · simp only [shutPublish]
      simp [List.any_append, hl7, Effect.isListen]
  · obtain ⟨b, hb, hb'⟩ := key BootupEvent (bootWorld app w) h1
    obtain ⟨s, hs1, hs'⟩ := key StartupEvent (startWorld sem env app w) h4
    refine ⟨b, s, [.ctxDone] ++ (shutPublish sem env app w).trace ++
      [.stop, .logPrintln "application is shutting down", .serverShutdown] ++
      [.logPrintln "application exiting", .cancel, .stop], ?_, hb', hs', ?_⟩
    · simp only [bootPublish, startPublish, installedTrace, servingTrace, drainingTrace] at htr
      rw [htr, hb, hs1]
      simp
    · simp only [shutPublish]
      simp [List.any_append, hl7, Effect.isListen]

/-- C5 amended, at a `Bootstrap` with one handler for each phase. -/
theorem BootUp_listens_after_startup_publish_witness :
    (sampleApp.BootUp sampleSem sampleEnv sampleWorld).trace.any Effect.isListen = true ∧
      ∃ b s rest, (sampleApp.BootUp sampleSem sampleEnv sampleWorld).trace =
        .notifyContext :: .publish BootupEvent :: b ++
          (sampleApp.middleWares.elems.map Effect.engineUse ++ [.setupRouter]) ++
          .publish StartupEvent :: s ++
          [.logInfo "starting ------ ----- --- ", .goListenAndServe (serverAddr sampleApp)] ++
            rest ∧
      b.all Effect.isHandlerEvent = true ∧ s.all Effect.isHandlerEvent = true ∧
      rest.any Effect.isListen = false :=
  ⟨by decide,
    BootUp_listens_after_startup_publish sampleSem sampleEnv sampleApp sampleWorld (by decide)⟩

/-- C6 fails on the code: in a run with no handler at all, a delivered signal and a
`server.Shutdown` that returns `nil`, the main control flow returns without any
`log.Fatal`, but the serve goroutine, whose `ListenAndServe` returns
`http.ErrServerClosed` once the drain has closed the listener, takes its `log.Fatal`
branch and exits the process with status 1; it does so for every error value. -/
theorem serveGoroutine_fatal_on_graceful_close :
    ((Default sampleApplication).BootUp sampleSem sampleEnv sampleWorld).outcome = .returned ∧
      ((Default sampleApplication).BootUp sampleSem sampleEnv sampleWorld).trace.any
        Effect.isFatal = false ∧
      serveGoroutine (some ErrServerClosed) =
        ([.logFatal "application run failed!http: Server closed"], .exit 1) ∧
      ∀ e, (serveGoroutine (some e)).2 = .exit 1 :=
  ⟨by decide, by decide, by decide, fun _ => rfl⟩

/-- C4 fails: a reload whose document has a port that is not a number and a changed
`cloud` section makes the unmarshal step return an error, and `UnmarshalConfig`
leaves `global.App.Config` with the old port and the new `cloud` section. -/
theorem UnmarshalConfig_failed_reload_changes_config :
    (fieldwiseLib.Unmarshal sampleBadReload.settings sampleApplication.Config).2 =
        some "app.port: expected type int" ∧
      UnmarshalConfig fieldwiseLib sampleBadReload sampleApplication =
        .ok ({ Config := { App := { Port := 8080 }, Cloud := "consul-b" }, ConfigViper := none },
          ["app.port: expected type int"]) ∧
      ({ App := { Port := 8080 }, Cloud := "consul-b" } : Config String) ≠
        sampleApplication.Config := by
  refine ⟨by decide, rfl, by decide⟩

/-- C4, amended: when the unmarshal step of a reload returns an error,
`UnmarshalConfig` does not propagate it: it returns normally after printing the
error, and it leaves `global.App.Config` as the decoder left the live object it was
handed; the configuration equals the previous one when the decoder wrote nothing
to that object. -/
theorem UnmarshalConfig_contains_error {K D : Type} (lib : ViperLib K D) (v : Viper D)
    (g : Application K D) (err : String)
    (h : (lib.Unmarshal v.settings g.Config).2 = some err) :
    UnmarshalConfig lib v g =
        .ok ({ g with Config := (lib.Unmarshal v.settings g.Config).1 }, [err]) ∧
      ((lib.Unmarshal v.settings g.Config).1 = g.Config →
        UnmarshalConfig lib v g = .ok (g, [err])) := by
  have e : UnmarshalConfig lib v g =
      .ok ({ g with Config := (lib.Unmarshal v.settings g.Config).1 }, [err]) := by
    simp [UnmarshalConfig, h]
  refine ⟨e, ?_⟩
  intro hc
  rw [e, hc]

/-- C4 amended, at a decoder that writes nothing on error. -/
theorem UnmarshalConfig_contains_error_witness :
    (allOrNothingLib.Unmarshal sampleBadReload.settings sampleApplication.Config).2 =
        some "app.port: expected type int" ∧
      UnmarshalConfig allOrNothingLib sampleBadReload sampleApplication =
        .ok (sampleApplication, ["app.port: expected type int"]) :=
  ⟨by decide,
    (UnmarshalConfig_contains_error allOrNothingLib sampleBadReload sampleApplication
      "app.port: expected type int" (by decide)).2 (by decide)⟩

/-- C7 fails: after the reload of a document with a port that is not a number and a
changed `cloud` section, `global.App.Config` holds the old port next to the new
`cloud` section; it is neither the previous configuration nor the object that
decoding the document into a fresh `config.Config` gives, and that is what every
reader finds from then on. -/
theorem UnmarshalConfig_leaves_mixture :
    configAfter (UnmarshalConfig fieldwiseLib sampleBadReload sampleApplication) =
        some { App := sampleApplication.Config.App, Cloud := "consul-b" } ∧
      sampleApplication.Config.Cloud ≠ "consul-b" ∧
      configAfter (UnmarshalConfig fieldwiseLib sampleBadReload sampleApplication) ≠
        some sampleApplication.Config ∧
      configAfter (UnmarshalConfig fieldwiseLib sampleBadReload sampleApplication) ≠
        some (fieldwiseLib.Unmarshal sampleBadReload.settings zeroConfig).1 := by
  decide

/-- C7, amended: a reload performed by `UnmarshalConfig` does not replace the
configuration object: whether the decoder succeeds or fails, `global.App.Config`
afterwards is the live object as the decoder left it after updating it in place,
nothing else of `global.App` changes, and the call returns normally. -/
theorem UnmarshalConfig_updates_in_place {K D : Type} (lib : ViperLib K D) (v : Viper D)
    (g : Application K D) :
    configAfter (UnmarshalConfig lib v g) = some (lib.Unmarshal v.settings g.Config).1 ∧
      ∃ out, UnmarshalConfig lib v g =
        .ok ({ g with Config := (lib.Unmarshal v.settings g.Config).1 }, out) := by
  simp only [UnmarshalConfig, configAfter]
  rcases h : (lib.Unmarshal v.settings g.Config).2 with _ | e <;> simp [h]

/-- C8 fails: with `CONFIG_FILE` set to the empty string the variable is set, yet
`InitConfig` loads from "config.yaml" and not from the path the variable holds. -/
theorem InitConfig_empty_CONFIG_FILE_uses_default :
    LookupEnv [("CONFIG_FILE", "")] "CONFIG_FILE" = some "" ∧
      InitConfig.configFile [("CONFIG_FILE", "")] = "config.yaml" ∧
      loadedFrom (InitConfig fieldwiseLib [("CONFIG_FILE", "")] sampleApplication) =
        some "config.yaml" := by
  decide

/-- C8, amended: `InitConfig` passes to `InitConfigByName` the value of `CONFIG_FILE`
when that variable is set to a non-empty string, and "config.yaml" when it is
unset or set to the empty string; a successful load leaves viper pointed at that
path. -/
theorem InitConfig_path {K D : Type} (lib : ViperLib K D) (environ : Environ)
    (g : Application K D) :
    InitConfig.configFile environ =
        (match LookupEnv environ "CONFIG_FILE" with
         | some p => if p = "" then "config.yaml" else p
         | none => "config.yaml") ∧
      InitConfig lib environ g =
        (match InitConfigByName lib (InitConfig.configFile environ) g with
         | .error e => .error e
         | .ok (v, g1, out) =>
           .ok ({ g1 with ConfigViper := some v },
             ["initing config, use log file " ++ InitConfig.configFile environ ++ " \n"] ++
               out ++ ["init config complete \n"])) ∧
      (match InitConfig lib environ g with
       | .ok (g1, _) => g1.ConfigViper.map (fun v => v.configFile) =
           some (InitConfig.configFile environ)
       | .error _ => True) := by
  refine ⟨?_, rfl, ?_⟩
  · simp only [InitConfig.configFile, Getenv]
    cases LookupEnv environ "CONFIG_FILE" with
    | none => simp
    | some p => by_cases hp : p = "" <;> simp [hp]
  · simp only [InitConfig, InitConfigByName, UnmarshalConfig]
    cases lib.ReadInConfig (InitConfig.configFile environ) with
    | error e => simp
    | ok d =>
      rcases h : (lib.Unmarshal d g.Config).2 with _ | e <;> simp [h]

/-- C9: each of `BootOpt`, `StartFunc`, `ShutDownFunc` and `Use` changes nothing of the
`Bootstrap` but its own list, which becomes the previous elements followed by the
arguments in order (a `nil` list counts as empty); `Discovery` appends one closure
calling `registry.Register(serviceInstance)` to the startup handlers and one closure
calling `registry.Deregister()` to the shutdown handlers, and leaves `bootOpts` and
`middleWares` as they were. -/
theorem builder_appends {K D : Type} (app : Bootstrap K D) (xs : Slice Func)
    (ms : Slice HandlerFunc) (serviceInstance registry : Nat) :
    ((app.BootOpt xs).bootOpts.elems = app.bootOpts.elems ++ xs.elems ∧
        app.BootOpt xs = { app with bootOpts := (app.BootOpt xs).bootOpts }) ∧
      ((app.StartFunc xs).startOpts.elems = app.startOpts.elems ++ xs.elems ∧
        app.StartFunc xs = { app with startOpts := (app.StartFunc xs).startOpts }) ∧
      ((app.ShutDownFunc xs).shutDownOpts.elems = app.shutDownOpts.elems ++ xs.elems ∧
        app.ShutDownFunc xs = { app with shutDownOpts := (app.ShutDownFunc xs).shutDownOpts }) ∧
      ((app.Use ms).middleWares.elems = app.middleWares.elems ++ ms.elems ∧
        app.Use ms = { app with middleWares := (app.Use ms).middleWares }) ∧
      ((app.Discovery serviceInstance registry).startOpts.elems =
          app.startOpts.elems ++ [Func.registerInstance registry serviceInstance] ∧
        (app.Discovery serviceInstance registry).shutDownOpts.elems =
          app.shutDownOpts.elems ++ [Func.deregister registry] ∧
        (app.Discovery serviceInstance registry).bootOpts = app.bootOpts ∧
        (app.Discovery serviceInstance registry).middleWares = app.middleWares) := by
  have happ : ∀ {α : Type} (s t : Slice α), s ≠ none →
      (Slice.append s t).elems = s.elems ++ t.elems := by
    intro α s t hs
    cases s with
    | none => exact absurd rfl hs
    | some l => simp [Slice.append, Slice.elems]
  have hnone : ∀ {α : Type}, Slice.elems (none : Slice α) = [] := fun {_} => rfl
  have hsome : ∀ {α : Type} (l : List α), Slice.elems (some l : Slice α) = l := fun {_} _ => rfl
  refine ⟨?_, ?_, ?_, ?_, ?_⟩
  · by_cases h : app.bootOpts = none
    · simp [Bootstrap.BootOpt, h, Slice.elems]
    · simp [Bootstrap.BootOpt, h, happ]
  · by_cases h : app.startOpts = none
    · simp [Bootstrap.StartFunc, h, Slice.elems]
    · simp [Bootstrap.StartFunc, h, happ]
  · by_cases h : app.shutDownOpts = none
    · simp [Bootstrap.ShutDownFunc, h, Slice.elems]
    · simp [Bootstrap.ShutDownFunc, h, happ]
  · by_cases h : app.middleWares = none
    · simp [Bootstrap.Use, h, Slice.elems]
    · simp [Bootstrap.Use, h, happ]
  · by_cases h : app.startOpts = none <;> by_cases h' : app.shutDownOpts = none <;>
      simp [Bootstrap.Discovery, Bootstrap.StartFunc, Bootstrap.ShutDownFunc, h, h', happ,
        hnone, hsome]

/-- C10 fails: the first run of a `Bootstrap` with boot handlers `[1, 0]`, of which
the second panics, and one startup handler leaves the startup registry empty; the
caller recovers, and the second run invokes boot handler 1 once, not twice, and
the startup handler not at all. -/
theorem BootUp_second_run_not_twice :
    (sampleBootHalf.BootUp sampleSem sampleEnv sampleWorld).outcome = .panic "boom" ∧
      sampleBootHalf.startOpts.elems = [.closure 2] ∧
      (sampleBootHalf.BootUp sampleSem sampleEnv sampleWorld).world.registry StartupEvent =
        sampleWorld.registry StartupEvent ∧
      (nthRun sampleSem sampleEnv sampleBootHalf sampleWorld 1).map
          (fun r => r.trace.count (.onEvent BootupEvent (.BootEventHandler (.closure 1)) 7)) =
        some 1 ∧
      (nthRun sampleSem sampleEnv sampleBootHalf sampleWorld 1).map
          (fun r => r.trace.count (.onEvent StartupEvent (.StartEventHandler (.closure 2)) 7)) =
        some 0 := by
  decide

/-- C10, amended: `BootUp` only adds to the registry of the event bus and never
clears it.  After any run the list of every event type is the list it had before
followed by what the run registered: always the wrapped boot handlers of the
`Bootstrap`, and after a run that returns the wrapped handlers of all three phases
(nothing for any other event type); with handlers that act on their store only,
the lists of the `Bootstrap` are unchanged.  Hence, when run number `n + 1` follows
`n` runs in the same process that each unwound with a boot or startup panic which
the caller recovered, it starts with the boot handlers registered `n` times over,
the startup handlers at most `n` times over and no shutdown handler added; from an
empty registry it invokes every boot handler at most `n + 1` times as often as it
occurs in `bootOpts`, exactly so often when no panic aborts the boot publish, every
startup handler at most `n + 1` times as often as it occurs in `startOpts`, and
every shutdown handler at most as often as it occurs in `shutDownOpts`. -/
theorem BootUp_registry_only_grows {σ K D : Type} (sem : Sem σ) (env : Env)
    (app : Bootstrap K D) (w : World σ) :
    (∀ t, ∃ added, (app.BootUp sem env w).world.registry t = w.registry t ++ added) ∧
      (app.BootUp sem env w).world.registry BootupEvent = w.registry BootupEvent ++
        app.bootOpts.elems.map (fun fc => some (.BootEventHandler fc)) ∧
      ((app.BootUp sem env w).outcome = .returned →
        ∀ t, (app.BootUp sem env w).world.registry t = w.registry t ++
          (if t = BootupEvent then
             app.bootOpts.elems.map (fun fc => some (.BootEventHandler fc))
           else if t = StartupEvent then
             app.startOpts.elems.map (fun fc => some (.StartEventHandler fc))
           else if t = ShutdownEvent then
             app.shutDownOpts.elems.map (fun fc => some (.ShutDownEventHandler fc))
           else [])) ∧
      ((app.BootUp sem env w).app.bootOpts = app.bootOpts ∧
        (app.BootUp sem env w).app.startOpts = app.startOpts ∧
        (app.BootUp sem env w).app.shutDownOpts = app.shutDownOpts ∧
        (app.BootUp sem env w).app.middleWares = app.middleWares) ∧
      (∀ n a w', afterRuns sem env app w n = some (a, w') →
        a.bootOpts = app.bootOpts ∧ a.startOpts = app.startOpts ∧
        a.shutDownOpts = app.shutDownOpts ∧
        w'.registry BootupEvent = w.registry BootupEvent ++
          (repeatList n app.bootOpts.elems).map (fun fc => some (.BootEventHandler fc)) ∧
        (∃ j, j ≤ n ∧ w'.registry StartupEvent = w.registry StartupEvent ++
          (repeatList j app.startOpts.elems).map (fun fc => some (.StartEventHandler fc))) ∧
        w'.registry ShutdownEvent = w.registry ShutdownEvent) ∧
      (∀ n r, nthRun sem env app w n = some r → (∀ t, w.registry t = []) → ∀ fc,
        r.trace.count (.onEvent BootupEvent (.BootEventHandler fc) env.ctx) ≤
          (n + 1) * app.bootOpts.elems.count fc ∧
        (r.trace.any (Effect.isPanicIn BootupEvent) = false →
          r.trace.count (.onEvent BootupEvent (.BootEventHandler fc) env.ctx) =
            (n + 1) * app.bootOpts.elems.count fc) ∧
        r.trace.count (.onEvent StartupEvent (.StartEventHandler fc) env.ctx) ≤
          (n + 1) * app.startOpts.elems.count fc ∧
        r.trace.count (.onEvent ShutdownEvent (.ShutDownEventHandler fc) env.ctx) ≤
          app.shutDownOpts.elems.count fc) := by
  obtain ⟨hbs, hbd, hsd⟩ := events_ne
  have i1 : ∀ a b : Func, Event.BootEventHandler a = Event.BootEventHandler b → a = b :=
    fun _ _ e => by cases e; rfl
  have i2 : ∀ a b : Func, Event.StartEventHandler a = Event.StartEventHandler b → a = b :=
    fun _ _ e => by cases e; rfl
  have i3 : ∀ a b : Func, Event.ShutDownEventHandler a = Event.ShutDownEventHandler b →
      a = b :=
    fun _ _ e => by cases e; rfl
  refine ⟨?_, ?_, ?_, BootUp_app sem env app w, ?_, ?_⟩
  · intro t
    rcases BootUp_registry_cases sem env app w with h | h | h
    · rw [h, bootWorld_registry]
      exact ⟨_, rfl⟩
    · rw [h, startWorld_registry]
      exact ⟨_, rfl⟩
    · rw [h, shutWorld_registry]
      exact ⟨_, rfl⟩
  · rcases BootUp_registry_cases sem env app w with h | h | h
    · rw [h, bootWorld_registry]
      simp
    · rw [h, startWorld_registry]
      simp
    · rw [h, shutWorld_registry]
      simp
  · intro hret t
    rcases BootUp_cases sem env app w with ⟨m, h1, ho, htr⟩ | ⟨h1, ⟨m, h4, ho, htr⟩ |
      ⟨h4, ⟨hs, ho, htr⟩ | ⟨hs, ⟨m, h7, ho, htr⟩ | ⟨h7, ⟨err, he, ho, htr⟩ | ⟨he, ho, htr⟩⟩⟩⟩⟩
    · rw [ho] at hret; cases hret
    · rw [ho] at hret; cases hret
    · rw [ho] at hret; cases hret
    · rw [ho] at hret; cases hret
    · rw [ho] at hret; cases hret
    · rw [(BootUp_world sem env app w h1 h4 hs h7).1, shutWorld_registry]
  · intro n a w' h
    exact afterRuns_inv sem env app w n a w' h
  · intro n r hr hreg fc
    obtain ⟨a, w', ha, rfl⟩ := nthRun_eq_some sem env app w n r hr
    obtain ⟨a1, a2, a3, b1, ⟨j, hj, b2⟩, b3⟩ := afterRuns_inv sem env app w n a w' ha
    have r1 : (bootWorld a w').registry BootupEvent =
        (repeatList (n + 1) app.bootOpts.elems).map (fun fc => some (.BootEventHandler fc)) := by
      rw [bootWorld_registry, b1, a1, hreg]
      simp [repeatList]
    have r4 : (startWorld sem env a w').registry StartupEvent =
        (repeatList (j + 1) app.startOpts.elems).map
          (fun fc => some (.StartEventHandler fc)) := by
      rw [startWorld_registry, b2, a2, hreg]
      simp [repeatList, Ne.symm hbs]
    have r7 : (shutWorld sem env a w').registry ShutdownEvent =
        app.shutDownOpts.elems.map (fun fc => some (.ShutDownEventHandler fc)) := by
      rw [shutWorld_registry, b3, a3, hreg]
      simp [Ne.symm hbd, Ne.symm hsd]
    have c1 := Publish_count_le sem env.ctx BootupEvent .BootEventHandler (fun _ _ => rfl) i1
      _ (bootWorld a w') r1 fc
    have c4 := Publish_count_le sem env.ctx StartupEvent .StartEventHandler (fun _ _ => rfl) i2
      _ (startWorld sem env a w') r4 fc
    have c7 := Publish_count_le sem env.ctx ShutdownEvent .ShutDownEventHandler
      (fun _ _ => rfl) i3 _ (shutWorld sem env a w') r7 fc
    rw [count_repeatList] at c1 c4
    have e1 := BootUp_count_boot sem env a w' (.BootEventHandler fc) env.ctx
    have e4 := BootUp_count_start_le sem env a w' (.StartEventHandler fc) env.ctx
    have e7 := BootUp_count_shut_le sem env a w' (.ShutDownEventHandler fc) env.ctx
    simp only [bootPublish, startPublish, shutPublish] at e1 e4 e7
    refine ⟨by rw [e1]; exact c1, ?_, ?_, Nat.le_trans e7 c7⟩
    · intro hnp
      rw [List.any_eq_false] at hnp
      have ho : (Publish sem env.ctx BootupEvent (bootWorld a w')).outcome = .returned := by
        rcases Publish_outcome sem env.ctx BootupEvent (bootWorld a w') with ho | ⟨m, ho⟩
        · exact ho
        · exfalso
          have hm := bootPublish_trace_sub sem env a w' _
            (Publish_panic_mem sem env.ctx BootupEvent (bootWorld a w') m ho)
          exact hnp _ hm (by simp [Effect.isPanicIn])
      have := Publish_count_eq sem env.ctx BootupEvent .BootEventHandler (fun _ _ => rfl) i1
        _ (bootWorld a w') r1 ho fc
      rw [e1, this, count_repeatList]
    · refine Nat.le_trans e4 (Nat.le_trans c4 ?_)
      exact Nat.mul_le_mul_right _ (Nat.succ_le_succ hj)

/-- C10 amended, at a `Bootstrap` whose boot handler panics in the first run and
returns in the second, where it is invoked twice. -/
theorem BootUp_registry_only_grows_witness :
    nthRun probeSem sampleEnv sampleRetry sampleWorld 1 = some sampleRetrySecond ∧
      (∀ t, sampleWorld.registry t = []) ∧
      sampleRetrySecond.trace.any (Effect.isPanicIn BootupEvent) = false ∧
      sampleRetrySecond.trace.count
          (.onEvent BootupEvent (.BootEventHandler (.closure 4)) sampleEnv.ctx) =
        (1 + 1) * sampleRetry.bootOpts.elems.count (.closure 4) :=
  ⟨rfl, fun _ => rfl, by decide,
    ((BootUp_registry_only_grows probeSem sampleEnv sampleRetry sampleWorld).2.2.2.2.2 1
      sampleRetrySecond rfl (fun _ => rfl) (.closure 4)).2.1 (by decide)⟩

end bootstrap
